import Mathlib

/-!
Verification development for the industrial_moveit distance-checking core.

Two source files are embedded:
* `industrial_collision_detection/src/collision_detection/collision_common.cpp`
  (namespace `ICD` below): `getDistanceInfo`, `DistanceRequest::enableGroup`,
  `distanceDetailedCallback`.
* `moveit_experimental/distance_field/src/collision_robot_openvdb.cpp`
  (namespace `OVDB` below): the constructor role-classification path
  (`createStaticSDFs`, `createActiveSDFs`, `createDynamicSDFs`,
  `addAssociatedFixedTransforms`), the standalone classifiers
  (`identifyStaticLinks`, `identifyStaticLinksHelper`), the sphere-fit retry
  loop, `createDefaultDistanceQuery`, `distanceSelf` and `distanceSelfHelper`.

Scalars of the narrow-phase callback are embedded as `ℚ` (its logic only
compares and copies doubles); the OpenVDB self-distance engine is embedded
over `ℝ` because gradient normalization genuinely involves square roots.
External collaborators (FCL's exact distance, OpenVDB grids/gradients,
Eigen transforms, forward kinematics) are oracle parameters, following the
spec's interface boundary (spec section 6).
-/

namespace ICD

/-- Three-component vector of rationals; the callback only copies these. -/
structure Vec3q where
  x : ℚ
  y : ℚ
  z : ℚ
  deriving DecidableEq, Repr

/-- Modelled from the spec: `DistanceResultsData` (Distance Result Entry) is
declared in `collision_common.h`, which is not among the provided sources.
Fields follow the spec's data model: the two body identifiers, the minimum
distance found so far and the two nearest surface points. -/
structure DistanceResultsData where
  min_distance : ℚ
  nearest_points0 : Vec3q
  nearest_points1 : Vec3q
  link_name0 : String
  link_name1 : String
  deriving DecidableEq, Repr

/-- Modelled from the spec: `DistanceResultsData::update` is declared in
`collision_common.h` (not under the provided sources).  Spec: "an update only
replaces the stored entry when the new distance is strictly smaller". -/
def DistanceResultsData.update (cur new : DistanceResultsData) : DistanceResultsData :=
  if new.min_distance < cur.min_distance then new else cur

/-- `collision_detection::BodyType` of the two shapes handed to the callback. -/
inductive BodyType where
  | robotLink
  | robotAttached
  | worldObject
  deriving DecidableEq, Repr

/-- `CollisionGeometryData` of one side of a candidate pair.  `ptrId` stands
for the raw pointer identity used by `sameObject`; `getID` is `getID()`;
`objId` is `ptr.obj->id_`, the key used for the per-link distance map;
`linkName` is the owning robot link (the attached link for attached bodies);
`touchLinks` is the attached body's touch-link set. -/
structure CollisionGeometryData where
  typ : BodyType
  ptrId : Nat
  getID : String
  objId : String
  linkName : String
  touchLinks : List String
  deriving DecidableEq, Repr

/-- `CollisionGeometryData::sameObject`: same body type and same raw pointer. -/
def sameObject (a b : CollisionGeometryData) : Bool :=
  a.typ = b.typ && a.ptrId = b.ptrId

/-- The robot link model consulted against `active_components_only`
(`cd->ptr.link` for links, `cd->ptr.ab->getAttachedLink()` for attached
bodies, `NULL` for world objects). -/
def linkOf (cd : CollisionGeometryData) : Option String :=
  match cd.typ with
  | .robotLink => some cd.linkName
  | .robotAttached => some cd.linkName
  | .worldObject => none

/-- `collision_detection::AllowedCollision::Type`. -/
inductive ACMType where
  | always
  | never
  | conditional
  deriving DecidableEq, Repr

/-- `DistanceRequest` (fields used by the callback).  `acm` is the allowed
collision matrix modelled as a lookup returning the entry when one exists
(`getAllowedCollision`); `activeOnly` is `active_components_only`. -/
structure DistanceRequest where
  global : Bool
  activeOnly : Option (List String)
  acm : Option (String → String → Option ACMType)
  distance_threshold : ℚ
  detailed : Bool
  verbose : Bool

/-- Association-list model of `std::map<std::string, DistanceResultsData>`.
(The C++ map is key-ordered; no callback claim depends on iteration order,
so a plain association list with unique keys is used.) -/
abbrev DistanceMap := List (String × DistanceResultsData)

/-- `map.find(k)`. -/
def mapLookup (m : DistanceMap) (k : String) : Option DistanceResultsData :=
  match m with
  | [] => none
  | (k', v) :: rest => if k = k' then some v else mapLookup rest k

/-- `map.insert(make_pair(k, v))`: no effect when the key is already present. -/
def mapInsert (m : DistanceMap) (k : String) (v : DistanceResultsData) : DistanceMap :=
  match m with
  | [] => [(k, v)]
  | (k', v') :: rest => if k = k' then (k', v') :: rest else (k', v') :: mapInsert rest k v

/-- Writing through a previously obtained iterator (`it->second.update(...)`). -/
def mapModify (m : DistanceMap) (k : String) (f : DistanceResultsData → DistanceResultsData) :
    DistanceMap :=
  match m with
  | [] => []
  | (k', v') :: rest => if k = k' then (k', f v') :: rest else (k', v') :: mapModify rest k f

/-- `DistanceData`'s mutable aggregate: the `DistanceResult` owned by the
query plus the `done` flag. -/
structure QueryState where
  minimum_distance : DistanceResultsData
  distance : DistanceMap
  collision : Bool
  done : Bool

/-- Result of one callback invocation: the mutated aggregate, the returned
boolean, and — when a measurement was performed — the bound passed to
`fcl::distance` together with the distance it returned. -/
structure CallbackOut where
  st : QueryState
  ret : Bool
  measured : Option (ℚ × ℚ)

/-- Whether a resolved link is in `active_components_only`
(`find(l) != end()`, with a null link counting as absent). -/
def activeIn (activeSet : List String) (l : Option String) : Bool :=
  match l with
  | none => false
  | some n => n ∈ activeSet

/-- Threshold selection of `distanceDetailedCallback` (source lines 178-213):
the upper bound handed to `fcl::distance`, starting from the request's
`distance_threshold`.  `found1`/`found2` are the entries found for
`cd1->ptr.obj->id_` / `cd2->ptr.obj->id_` (iterators `it1`, `it2`). -/
def computeBound (req : DistanceRequest) (st : QueryState) (active1 active2 : Bool)
    (id1 id2 : String) : ℚ :=
  if !req.global then
    let e1 := mapLookup st.distance id1
    let e2 := mapLookup st.distance id2
    match req.activeOnly with
    | some _ =>
      if active1 && active2 then
        match e1, e2 with
        | some v1, some v2 => max v1.min_distance v2.min_distance
        | _, _ => req.distance_threshold
      else if active1 && !active2 then
        match e1 with
        | some v1 => v1.min_distance
        | none => req.distance_threshold
      else if !active1 && active2 then
        match e2 with
        | some v2 => v2.min_distance
        | none => req.distance_threshold
      else req.distance_threshold
    | none =>
      match e1, e2 with
      | some v1, some v2 => max v1.min_distance v2.min_distance
      | _, _ => req.distance_threshold
  else st.minimum_distance.min_distance

/-- The active-component restriction of `distanceDetailedCallback` (source
lines 98-118): with a restriction installed, resolve each side's owning
link and reject (`none`) when neither is active, otherwise report each
side's activity; with no restriction both sides count as active. -/
def activeFlags (req : DistanceRequest) (cd1 cd2 : CollisionGeometryData) :
    Option (Bool × Bool) :=
  match req.activeOnly with
  | some activeSet =>
    let in1 := activeIn activeSet (linkOf cd1)
    let in2 := activeIn activeSet (linkOf cd2)
    if !in1 && !in2 then none else some (in1, in2)
  | none => some (true, true)

/-- The permanent waivers of `distanceDetailedCallback` (source lines
120-170): an `ALWAYS` entry in the allowed collision matrix, or a
link/attached-body pair whose touch-link set names the link. -/
def alwaysAllowed (req : DistanceRequest) (cd1 cd2 : CollisionGeometryData) : Bool :=
  let allowAcm : Bool :=
    match req.acm with
    | some lookup =>
      match lookup cd1.getID cd2.getID with
      | some t => t = ACMType.always
      | none => false
    | none => false
  let allowTouch : Bool :=
    if cd1.typ = BodyType.robotLink && cd2.typ = BodyType.robotAttached then
      cd1.getID ∈ cd2.touchLinks
    else if cd2.typ = BodyType.robotLink && cd1.typ = BodyType.robotAttached then
      cd2.getID ∈ cd1.touchLinks
    else false
  allowAcm || allowTouch

/-- The aggregate mutation of `distanceDetailedCallback` once the measured
distance `d` fell below the bound (source lines 221-270): update the global
minimum entry, then in per-link mode set the collision flag on contact and
insert-or-update the entry of each active side (through the iterators
`it1`/`it2` captured before the mutation), and in global-only mode set both
the collision and the done flag on contact. -/
def applyMeasurement (req : DistanceRequest) (cd1 cd2 : CollisionGeometryData)
    (active1 active2 : Bool) (st : QueryState) (d : ℚ) (p1 p2 : Vec3q) : QueryState :=
  let dist_result : DistanceResultsData :=
    { min_distance := d, nearest_points0 := p1, nearest_points1 := p2,
      link_name0 := cd1.objId, link_name1 := cd2.objId }
  let found1 := mapLookup st.distance cd1.objId
  let found2 := mapLookup st.distance cd2.objId
  let newMin := st.minimum_distance.update dist_result
  if !req.global then
    let collision1 := if d ≤ 0 && !st.collision then true else st.collision
    let dmap1 :=
      if active1 then
        match found1 with
        | none => mapInsert st.distance cd1.objId dist_result
        | some _ => mapModify st.distance cd1.objId (·.update dist_result)
      else st.distance
    let dmap2 :=
      if active2 then
        match found2 with
        | none => mapInsert dmap1 cd2.objId dist_result
        | some _ => mapModify dmap1 cd2.objId (·.update dist_result)
      else dmap1
    { minimum_distance := newMin, distance := dmap2, collision := collision1, done := st.done }
  else
    if d ≤ 0 then
      { minimum_distance := newMin, distance := st.distance, collision := true, done := true }
    else
      { minimum_distance := newMin, distance := st.distance, collision := st.collision,
        done := st.done }

/-- `distanceDetailedCallback` (source lines 86-273).  `measure` is FCL's
exact-distance primitive: given the upper bound it receives through
`fcl_result.min_distance`, it yields the measured distance and the two
nearest points (spec section 6's opaque `exactDistance`).  Early rejections
return `false` and leave the aggregate untouched; the final statement
returns `cdata->done`. -/
def distanceDetailedCallback (req : DistanceRequest) (cd1 cd2 : CollisionGeometryData)
    (measure : ℚ → ℚ × Vec3q × Vec3q) (st : QueryState) : CallbackOut :=
  -- do not distance check geoms part of the same object / link / attached body
  if sameObject cd1 cd2 then ⟨st, false, none⟩
  else
    match activeFlags req cd1 cd2 with
    | none => ⟨st, false, none⟩
    | some (active1, active2) =>
      if alwaysAllowed req cd1 cd2 then ⟨st, false, none⟩
      else
        let dist_threshold := computeBound req st active1 active2 cd1.objId cd2.objId
        let m := measure dist_threshold
        if m.1 < dist_threshold then
          let st' := applyMeasurement req cd1 cd2 active1 active2 st m.1 m.2.1 m.2.2
          ⟨st', st'.done, some (dist_threshold, m.1)⟩
        else ⟨st, st.done, some (dist_threshold, m.1)⟩

/-- `DistanceInfo`: the derived per-link "nearest obstacle + avoidance
vector" view produced by `getDistanceInfo`. -/
structure DistanceInfo where
  nearest_obsticle : String
  link_point : Vec3q
  obsticle_point : Vec3q
  avoidance_vector : Vec3q
  distance : ℚ
  deriving DecidableEq, Repr

/-- Componentwise vector difference (`link_point - obsticle_point`). -/
def vsubq (a b : Vec3q) : Vec3q := ⟨a.x - b.x, a.y - b.y, a.z - b.z⟩

/-- One entry's processing in `getDistanceInfo` (source lines 44-73).
`tf` is the user transform applied to both points (an opaque affine map) and
`normalizeV` is Eigen's `Vector3d::normalize` (opaque external vector math).
`uninit` stands for the contents of the default-constructed `dist_info`
that the mismatch branch leaves untouched; the third component counts
`ROS_ERROR` emissions. -/
def getDistanceInfoStep (tf normalizeV : Vec3q → Vec3q) (uninit : DistanceInfo)
    (key : String) (dist : DistanceResultsData) : DistanceInfo × Bool × Nat :=
  if dist.link_name0 = key then
    let lp := tf dist.nearest_points0
    let op := tf dist.nearest_points1
    (⟨dist.link_name1, lp, op, normalizeV (vsubq lp op), dist.min_distance⟩, true, 0)
  else if dist.link_name1 = key then
    let lp := tf dist.nearest_points1
    let op := tf dist.nearest_points0
    (⟨dist.link_name0, lp, op, normalizeV (vsubq lp op), dist.min_distance⟩, true, 0)
  else
    (uninit, false, 1)

/-- `getDistanceInfo` (source lines 41-76): walks the detailed distance map
in order, reorients each entry so "self" is first, and inserts one
`DistanceInfo` per key — including, after the `ROS_ERROR`, the untouched
default-constructed one when neither stored identifier matches the key.
Returns the final status boolean, the built `distance_info_map`, and the
number of errors logged.  The loop is factored as `getDistanceInfoFold`
over an explicit accumulator `(status, distance_info_map, error count)`. -/
def getDistanceInfoFold (tf normalizeV : Vec3q → Vec3q) (uninit : DistanceInfo)
    (acc : Bool × List (String × DistanceInfo) × Nat)
    (distance_detailed : List (String × DistanceResultsData)) :
    Bool × List (String × DistanceInfo) × Nat :=
  distance_detailed.foldl
    (fun acc ent =>
      let step := getDistanceInfoStep tf normalizeV uninit ent.1 ent.2
      (acc.1 && step.2.1, acc.2.1 ++ [(ent.1, step.1)], acc.2.2 + step.2.2))
    acc

/-- `getDistanceInfo` (source lines 41-76): run the fold from `status =
true`, an empty info map and zero errors. -/
def getDistanceInfo (tf normalizeV : Vec3q → Vec3q) (uninit : DistanceInfo)
    (distance_detailed : List (String × DistanceResultsData)) :
    Bool × List (String × DistanceInfo) × Nat :=
  getDistanceInfoFold tf normalizeV uninit (true, [], 0) distance_detailed

/-- `DistanceRequest::enableGroup` (source lines 78-84): the kinematic model
is abstracted to its group table; a known group installs that group's
updated-links-with-geometry set, an unknown one resets the restriction to
`NULL`. -/
def enableGroup (groupTable : String → Option (List String)) (group_name : String) :
    Option (List String) :=
  match groupTable group_name with
  | some links => some links
  | none => none

/-- Claim C2's bound, read off the spec sentence: "the larger of the two
sides' currently-known best stored distances (defaulting to the request's
distance-threshold)" in per-link mode, and the current global minimum in
global-only mode.  Each side's value defaults to the threshold when that
side has no stored entry. -/
def claimBound (req : DistanceRequest) (st : QueryState) (id1 id2 : String) : ℚ :=
  if !req.global then
    let v1 := (mapLookup st.distance id1).elim req.distance_threshold (·.min_distance)
    let v2 := (mapLookup st.distance id2).elim req.distance_threshold (·.min_distance)
    max v1 v2
  else st.minimum_distance.min_distance

/-- The bound the code actually uses, stated declaratively (the amended
claim C2): per-link mode takes the larger over the sides marked active of
that side's stored best (each defaulting to the request threshold); a side
marked inactive is excluded rather than defaulted; global-only mode takes
the current global minimum. -/
def amendedBound (req : DistanceRequest) (st : QueryState) (active1 active2 : Bool)
    (id1 id2 : String) : ℚ :=
  if !req.global then
    let v1 := (mapLookup st.distance id1).elim req.distance_threshold (·.min_distance)
    let v2 := (mapLookup st.distance id2).elim req.distance_threshold (·.min_distance)
    match active1, active2 with
    | true, true => max v1 v2
    | true, false => v1
    | false, true => v2
    | false, false => req.distance_threshold
  else st.minimum_distance.min_distance

end ICD

namespace OVDB

/-- Abstract kinematic model as consumed by `CollisionRobotOpenVDB` (spec
section 6's kinematic-model collaborator).  Links are identified by `Nat`
(standing for `LinkModel*` pointers).  `links` is
`getLinkModelsWithCollisionGeometry()` (the member `links_`), `fixedAdj`
gives the keys of `getAssociatedFixedTransforms()` in iteration order,
`groups` is `getJointModelGroups()` with each group's `getLinkModels()`,
and `linkName` is `LinkModel::getName()`. -/
structure RobotModel where
  root : Nat
  links : List Nat
  fixedAdj : Nat → List Nat
  groups : List (String × List Nat)
  linkName : Nat → String

/-- The recursive fixed-transform walk shared verbatim (in its effect on the
link lists) by `addAssociatedFixedTransforms` (source lines 152-177) and
`identifyStaticLinksHelper` (source lines 625-651): iterate the associated
fixed transforms of the current chain, skip children already considered,
otherwise mark them considered, record them as static when they carry
collision geometry, and recurse.  (`addAssociatedFixedTransforms`
additionally builds one SDF per recorded link, in lockstep with
`static_links_.push_back`; that side effect does not influence the link
lists.)  The accumulator is the pair `(static links so far, considered
links so far)`; `fuel` bounds the recursion depth, standing for the
unbounded C++ recursion (every claim about the walk is either quantified
over `fuel` or instantiated with a depth exceeding the model's size). -/
def fixedWalk (m : RobotModel) : Nat → Nat → List Nat × List Nat → List Nat × List Nat
  | 0, _, acc => acc
  | fuel + 1, link, acc =>
    (m.fixedAdj link).foldl
      (fun acc c =>
        if c ∈ acc.2 then acc
        else
          fixedWalk m fuel c
            (if c ∈ m.links then acc.1 ++ [c] else acc.1, acc.2 ++ [c]))
      acc

/-- `createStaticSDFs` (source lines 51-67), restricted to its effect on
`static_links_`: the root is recorded first when it carries collision
geometry, then `addAssociatedFixedTransforms(root_link, models)` walks the
fixed-transform graph starting from an "empty" considered list `models`
(which, notably, does not contain the root). -/
def createStaticSDFsLinks (m : RobotModel) (fuel : Nat) : List Nat :=
  let init := if m.root ∈ m.links then [m.root] else []
  (fixedWalk m fuel m.root (init, [])).1

/-- `identifyStaticLinks` (source lines 604-623): same walk, but the
considered set is seeded with the root link before walking. -/
def identifyStaticLinks (m : RobotModel) (fuel : Nat) : List Nat :=
  let init := if m.root ∈ m.links then [m.root] else []
  (fixedWalk m fuel m.root (init, [m.root])).1

/-- `createActiveSDFs` (source lines 69-84), restricted to its effect on
`active_links_`: over all joint model groups in order, append each group
link that is not yet in `active_links_` and carries collision geometry. -/
def createActiveSDFsLinks (m : RobotModel) : List Nat :=
  m.groups.foldl
    (fun acc g =>
      g.2.foldl (fun acc2 l => if l ∉ acc2 ∧ l ∈ m.links then acc2 ++ [l] else acc2) acc)
    []

/-- `v.erase(std::remove(v.begin(), v.end(), x))` as written in
`createDynamicSDFs` (source lines 132 and 138).  `std::remove` compacts the
elements different from `x` to the front, leaving the original tail values
in place, and returns the new logical end; the single-iterator `erase`
removes exactly the element at that position.  When `x` does not occur the
returned iterator is `end()` and `erase(end())` is undefined behavior,
modelled as `none`. -/
def eraseRemove (v : List Nat) (x : Nat) : Option (List Nat) :=
  let f := v.filter (fun y => y ≠ x)
  if f.length = v.length then none
  else some (f ++ v.drop (f.length + 1))

/-- `createDynamicSDFs` (source lines 125-150), restricted to its effect on
`dynamic_links_`: start from all collision-bearing links and remove the
static links, then the active links, one `erase(remove(...))` each. -/
def createDynamicSDFsLinks (m : RobotModel) (statics actives : List Nat) :
    Option (List Nat) := do
  let d1 ← statics.foldlM (fun v x => eraseRemove v x) m.links
  actives.foldlM (fun v x => eraseRemove v x) d1

/-- The constructor's role classification (constructor, source lines 13-25):
`createStaticSDFs`, `createActiveSDFs`, `createDynamicSDFs` in that order.
`none` propagates the undefined `erase(end())` of `createDynamicSDFs`. -/
def constructLinks (m : RobotModel) (fuel : Nat) :
    Option (List Nat × List Nat × List Nat) :=
  let s := createStaticSDFsLinks m fuel
  let a := createActiveSDFsLinks m
  (createDynamicSDFsLinks m s a).map (fun d => (s, a, d))

/-- Three-component real vector (`openvdb::Vec3f` / `Eigen::Vector3d`). -/
structure Vec3 where
  x : ℝ
  y : ℝ
  z : ℝ

/-- Componentwise sum, as in `openvdb::Vec3f::sum()`. -/
def vsum (v : Vec3) : ℝ := v.x + v.y + v.z

/-- Vector addition. -/
def vadd (a b : Vec3) : Vec3 := ⟨a.x + b.x, a.y + b.y, a.z + b.z⟩

/-- Scalar multiple. -/
def vscale (c : ℝ) (v : Vec3) : Vec3 := ⟨c * v.x, c * v.y, c * v.z⟩

/-- Squared Euclidean norm. -/
def normSq (v : Vec3) : ℝ := v.x ^ 2 + v.y ^ 2 + v.z ^ 2

/-- `normalize()` of Eigen and OpenVDB vectors: divide by the Euclidean
norm.  (On the zero vector the C++ division yields NaN; in this real-number
model `1 / Real.sqrt 0 = 0`, so the result is the zero vector — either way
it is not unit length.) -/
noncomputable def normalizeV (v : Vec3) : Vec3 := vscale (1 / Real.sqrt (normSq v)) v

/-- A bounding sphere `(center, radius)` of an active body's approximation
(`std::pair<openvdb::math::Vec3d, double>`). -/
def Sphere := Vec3 × ℝ

/-- Modelled from the spec: `OpenVDBDistanceField::fillWithSpheres` lives in
`openvdb_distance_field.cpp`, which is not among the provided sources.  Per
spec section 4.3 it is the sphere-fitting primitive `fitSpheres`, requesting
20 spheres with overlap permitted from a bounded sampling budget; one call
stores the fit produced at the current voxel size into the output vector.
It is abstracted as an oracle `fit : ℝ → List Sphere` from voxel size to the
fitted approximation, one oracle per link. -/
def FitOracle := ℝ → List Sphere

/-- The sphere-fit retry loop of `createActiveSDFs` (source lines 88-119)
for one active link: up to `fuel` (the source uses 10) attempts, each
fitting at the current voxel size and stopping as soon as more than one
sphere was produced ("openvdb appears to ALWAYS insert one sphere, so we
want more"), otherwise halving the voxel size and retrying; the vector
keeps the spheres of the last attempt. -/
def sphereFitLoop (fit : FitOracle) : Nat → ℝ → List Sphere
  | 0, _ => []
  | 1, v => fit v
  | fuel + 2, v =>
    let s := fit v
    if s.length > 1 then s else sphereFitLoop fit (fuel + 1) (v * 0.5)

/-- The `ROS_ERROR` after the retry loop (source lines 116-119): emitted
exactly once, if and only if the stored approximation ends up empty. -/
def sphereFitWarnings (s : List Sphere) : Nat := if s.length = 0 then 1 else 0

/-- `active_spheres_` as built by `createActiveSDFs`: the retry loop runs
once per active link, always starting from the construction voxel size. -/
def createActiveSpheres (fit : Nat → FitOracle) (voxel : ℝ) (actives : List Nat) :
    List (List Sphere) :=
  actives.map (fun l => sphereFitLoop (fit l) 10 voxel)

/-- Body role (`Static` / `Active` / `Dynamic` enum used to index
`sdfs_data`). -/
inductive Role where
  | Static
  | Active
  | Dynamic
  deriving DecidableEq, Repr

/-- `DistanceQueryData`: one active body's precomputed query plan.  The
defaults (`empty = true`, `gradient = false`, no children, no spheres) are
those of the declaration in `collision_robot_openvdb.h` as exercised by
`createDefaultDistanceQuery`, which only ever sets `empty = false`
explicitly. -/
structure DistanceQueryData where
  parent_name : String
  empty : Bool := true
  child_name : List String := []
  child_index : List Nat := []
  child_type : List Role := []
  spheres : List Sphere := []
  gradient : Bool := false

/-- `isCollisionAllowed` (source lines 487-502): true only when the matrix
has an entry for the pair and that entry is `ALWAYS`. -/
def isCollisionAllowed (acm : Option (String → String → Option ICD.ACMType))
    (l1 l2 : String) : Bool :=
  match acm with
  | some lookup =>
    match lookup l1 l2 with
    | some t => t = ICD.ACMType.always
    | none => false
  | none => false

/-- `createDefaultAllowedCollisionMatrix` (source lines 504-515).  The
`AllowedCollisionMatrix` container is a MoveIt-core collaborator; following
spec section 4.1, seeding every collision-bearing pair with `false` yields
`NEVER` entries and each SRDF-disabled pair is overwritten to `ALWAYS`,
symmetrically. -/
def createDefaultAllowedCollisionMatrix (collisionNames : List String)
    (disabled : List (String × String)) : String → String → Option ICD.ACMType :=
  fun a b =>
    if (a, b) ∈ disabled ∨ (b, a) ∈ disabled then some ICD.ACMType.always
    else if a ∈ collisionNames ∧ b ∈ collisionNames then some ICD.ACMType.never
    else none

/-- `createDefaultDistanceQuery` (source lines 364-415): one
`DistanceQueryData` per active link, in order.  A link whose sphere
approximation is empty contributes a default (`empty = true`) entry with no
children; otherwise the plan lists, in order, the other active links, the
dynamic links and the static links that are not excluded by the allowed
collision matrix, each with its index into the respective role array. -/
def createDefaultDistanceQuery (name : Nat → String)
    (acm : Option (String → String → Option ICD.ACMType))
    (statics actives dynamics : List Nat) (spheres : List (List Sphere)) :
    List DistanceQueryData :=
  (List.range actives.length).map (fun j =>
    let parent := name (actives.getD j 0)
    if (spheres.getD j []).length = 0 then
      { parent_name := parent }
    else
      let actCh := (List.range actives.length).filterMap (fun i =>
        if i ≠ j ∧ ¬ isCollisionAllowed acm (name (actives.getD i 0)) parent then
          some (name (actives.getD i 0), Role.Active, i)
        else none)
      let dynCh := (List.range dynamics.length).filterMap (fun i =>
        if ¬ isCollisionAllowed acm (name (dynamics.getD i 0)) parent then
          some (name (dynamics.getD i 0), Role.Dynamic, i)
        else none)
      let staCh := (List.range statics.length).filterMap (fun i =>
        if ¬ isCollisionAllowed acm (name (statics.getD i 0)) parent then
          some (name (statics.getD i 0), Role.Static, i)
        else none)
      let ch := actCh ++ dynCh ++ staCh
      { parent_name := parent, empty := false,
        child_name := ch.map (·.1),
        child_type := ch.map (·.2.1),
        child_index := ch.map (·.2.2) })

/-- `SDFData`: one body's discretized signed distance field as sampled
during a query.  The four operations are the volumetric-grid collaborator
of spec section 6, opaque to this core: `value` is
`accessor.getValue(ijk)`, `worldToIndexNodeCentered` the grid transform's
world-to-index snap, `gradAt` the external
`ISGradient<CD_2ND>::result(accessor, ijk)` operator and `applyIJT` the
`baseMap()->applyIJT` frame conversion. -/
structure SDFData where
  value : ℤ × ℤ × ℤ → ℝ
  worldToIndexNodeCentered : Vec3 → ℤ × ℤ × ℤ
  gradAt : ℤ × ℤ × ℤ → Vec3
  applyIJT : Vec3 → Vec3

/-- `approxEqual` (source lines 517-521) with its default epsilon. -/
def approxEqual (a b : ℝ) : Prop := |a - b| < 0.00001

noncomputable instance (a b : ℝ) : Decidable (approxEqual a b) :=
  Real.decidableLT _ _

/-- `collision_detection::DistanceResultsData` as used by the self-distance
engine (real-valued side).  Modelled from the spec: the struct lives in
`collision_common.h`, not among the provided sources; per the spec's data
model it holds the two identifiers, the minimum distance, a has-gradient
flag (false on a freshly constructed entry) and the gradient vector. -/
structure DistanceResultsDataR where
  min_distance : ℝ := 0
  link_name0 : String := ""
  link_name1 : String := ""
  hasNearestPoints : Bool := false
  hasGradient : Bool := false
  gradient : Vec3 := ⟨0, 0, 0⟩

instance : Inhabited DistanceResultsDataR := ⟨{}⟩

/-- Accumulator of `distanceSelfHelper`: the entry under construction plus
the local `gradient` and `total_weights` variables. -/
structure HelperAcc where
  res : DistanceResultsDataR
  gradient : Vec3
  total_weights : ℝ

/-- The inner sphere loop of `distanceSelfHelper` (source lines 540-555):
visit every approximation sphere, snap its center into the child's index
space, read the stored distance, ignore background ("no information")
samples, subtract the sphere radius, and keep the smallest value together
with its cell and a found flag.  The `(0,0,0)` start cell mirrors the
uninitialized `child_min_ijk`, which the source only reads when
`dist_found` is set. -/
noncomputable def sphereScan (child : SDFData) (background : ℝ) (spheres : List Sphere) :
    ℝ × (ℤ × ℤ × ℤ) × Bool :=
  spheres.foldl
    (fun acc s =>
      let ijk := child.worldToIndexNodeCentered s.1
      let child_dist := child.value ijk
      if ¬ approxEqual child_dist background then
        let d := child_dist - s.2
        if d < acc.1 then (d, ijk, true) else acc
      else acc)
    (background, (0, 0, 0), false)

/-- One child body's processing in `distanceSelfHelper` (source lines
533-583): scan the spheres; when a distance was found, replace the entry's
minimum only if strictly smaller, and, when a gradient was requested,
sample the cell gradient, skip it when its component sum is exactly zero,
otherwise weight it by `background - child_min`, accumulate, and mark the
entry as carrying a gradient. -/
noncomputable def distanceSelfChild (data : DistanceQueryData) (sdfs : Role → Nat → SDFData)
    (background : ℝ) (acc : HelperAcc) (c : String × Role × Nat) : HelperAcc :=
  let child := sdfs c.2.1 c.2.2
  let scan := sphereScan child background data.spheres
  let child_min := scan.1
  let child_min_ijk := scan.2.1
  if scan.2.2 then
    let res1 :=
      if child_min < acc.res.min_distance then
        { acc.res with min_distance := child_min, link_name1 := c.1 }
      else acc.res
    if data.gradient then
      let g := child.gradAt child_min_ijk
      if vsum g ≠ 0 then
        let weight := background - child_min
        let r := vscale weight (normalizeV (child.applyIJT g))
        { res := { res1 with hasGradient := true },
          gradient := vadd acc.gradient r,
          total_weights := acc.total_weights + weight }
      else { acc with res := res1 }
    else { acc with res := res1 }
  else acc

/-- The child loop of `distanceSelfHelper`: the entry starts at the
background distance with the parent as first identifier, gradient
accumulator zero and total weight zero, and folds over the query plan's
parallel child arrays. -/
noncomputable def distanceSelfHelperCore (data : DistanceQueryData)
    (sdfs : Role → Nat → SDFData) (background : ℝ) : HelperAcc :=
  let init : HelperAcc :=
    { res := { min_distance := background, link_name0 := data.parent_name,
               hasNearestPoints := false },
      gradient := ⟨0, 0, 0⟩, total_weights := 0 }
  (data.child_name.zip (data.child_type.zip data.child_index)).foldl
    (distanceSelfChild data sdfs background) init

/-- `distanceSelfHelper` (source lines 523-597): run the child loop, then,
when a gradient was recorded, either report the exact zero vector (total
weight zero) or divide the accumulated vector by the total weight and
normalize. -/
noncomputable def distanceSelfHelper (data : DistanceQueryData)
    (sdfs : Role → Nat → SDFData) (background : ℝ) : DistanceResultsDataR :=
  let acc := distanceSelfHelperCore data sdfs background
  if acc.res.hasGradient then
    if acc.total_weights = 0 then
      { acc.res with gradient := ⟨0, 0, 0⟩ }
    else
      let averaged : Vec3 :=
        ⟨acc.gradient.x / acc.total_weights, acc.gradient.y / acc.total_weights,
         acc.gradient.z / acc.total_weights⟩
      { acc.res with gradient := normalizeV averaged }
  else acc.res

/-- Association list standing for the `std::map<std::string,
DistanceResultsData>` of the self-distance result. -/
abbrev ResMap := List (String × DistanceResultsDataR)

/-- `res.distance.insert(...)`: no effect when the key already exists. -/
def resInsert (m : ResMap) (k : String) (v : DistanceResultsDataR) : ResMap :=
  match m with
  | [] => [(k, v)]
  | (k', v') :: rest => if k = k' then (k', v') :: rest else (k', v') :: resInsert rest k v

/-- `res.distance[k]` on a key known to be present (`operator[]` would
default-insert otherwise). -/
def resLookup (m : ResMap) (k : String) : Option DistanceResultsDataR :=
  match m with
  | [] => none
  | (k', v') :: rest => if k = k' then some v' else resLookup rest k

/-- The two ways `distanceSelf` commits undefined behavior on degenerate
input: dereferencing the null group pointer returned for an unknown group
name, and dereferencing `res.distance.begin()` when the result map is
empty. -/
inductive QueryFault where
  | nullGroupDeref
  | emptyMapDeref
  deriving DecidableEq, Repr

/-- The state a `CollisionRobotOpenVDB` instance carries into a query: the
three role sequences, the fitted sphere approximations and precomputed
query plans, the background distance and the model. -/
structure EngineState where
  model : RobotModel
  statics : List Nat
  actives : List Nat
  dynamics : List Nat
  active_spheres : List (List Sphere)
  dist_query : List DistanceQueryData
  background : ℝ

/-- The self-distance request fields used by `distanceSelf`. -/
structure SelfDistanceRequest where
  group_name : String
  gradient : Bool

/-- The self-distance result: the per-link map and the query-wide minimum
entry. -/
structure SelfDistanceResult where
  distance : ResMap
  minimum_distance : DistanceResultsDataR

/-- `getJointModelGroup` of the kinematic-model collaborator: `none` stands
for the null pointer MoveIt returns for an unknown group name. -/
def getJointModelGroup (m : RobotModel) (n : String) : Option (List Nat) :=
  (m.groups.find? (fun g => g.1 = n)).map (fun g => g.2)

/-- `distanceSelf` (source lines 417-485).  `robotTf` applies
`state.getGlobalLinkTransform(link)` to a point (forward kinematics,
external); `mkActive`/`mkDynamic`/`mkStatic` build the per-index `SDFData`
from the stored grid and the current transform (OpenVDB grid machinery,
external — including the deliberate transpose for the active fields).  The
embedding follows the source's order: group lookup and dereference first
(`group->getUpdatedLinkModelsWithGeometryNames()` on a possibly null
pointer — its result is never used afterwards), then the per-query copy of
the query plans with world-transformed spheres, then one helper run per
non-empty plan, then the minimum selection that dereferences
`res.distance.begin()` before scanning. -/
noncomputable def distanceSelf (st : EngineState)
    (robotTf : Nat → Vec3 → Vec3)
    (mkActive mkDynamic mkStatic : Nat → SDFData)
    (req : SelfDistanceRequest) : Except QueryFault SelfDistanceResult :=
  match getJointModelGroup st.model req.group_name with
  | none => .error QueryFault.nullGroupDeref
  | some _ =>
    let dist_query :=
      (st.dist_query.zip (st.actives.zip st.active_spheres)).map
        (fun p =>
          { p.1 with
              spheres := p.2.2.map (fun s => (robotTf p.2.1 s.1, s.2)),
              gradient := req.gradient })
    let sdfs : Role → Nat → SDFData := fun r i =>
      match r with
      | Role.Active => mkActive i
      | Role.Dynamic => mkDynamic i
      | Role.Static => mkStatic i
    let resDistance := dist_query.foldl
      (fun acc dq =>
        if ¬ dq.empty then
          let d := distanceSelfHelper dq sdfs st.background
          resInsert acc d.link_name0 d
        else acc)
      []
    match resDistance with
    | [] => .error QueryFault.emptyMapDeref
    | first :: _ =>
      let pick := resDistance.foldl
        (fun (acc : ℝ × String) ent =>
          if ent.2.min_distance < acc.1 then (ent.2.min_distance, ent.2.link_name0) else acc)
        (st.background, first.2.link_name0)
      .ok { distance := resDistance,
            minimum_distance := (resLookup resDistance pick.2).getD default }

end OVDB

/-! ## Claims -/

section Claims

open ICD OVDB

/-- C3: for every candidate pair that reaches exact measurement, if the
measurement returns a value greater than or equal to the bound supplied to
it, `distanceDetailedCallback` leaves the shared aggregate completely
unchanged — global minimum entry, per-link distance map, collision flag and
done flag keep their prior values. -/
theorem callback_early_exit_no_mutation (req : ICD.DistanceRequest)
    (cd1 cd2 : ICD.CollisionGeometryData) (measure : ℚ → ℚ × ICD.Vec3q × ICD.Vec3q)
    (st : ICD.QueryState) (b d : ℚ)
    (h : (ICD.distanceDetailedCallback req cd1 cd2 measure st).measured = some (b, d))
    (hbd : b ≤ d) :
    (ICD.distanceDetailedCallback req cd1 cd2 measure st).st = st := by
  rcases hout : ICD.distanceDetailedCallback req cd1 cd2 measure st with ⟨ost, oret, omeas⟩
  rw [hout] at h
  dsimp only at h ⊢
  unfold ICD.distanceDetailedCallback at hout
  split at hout
  · injection hout with h1 h2 h3; subst h3; exact Option.noConfusion h
  · split at hout
    · injection hout with h1 h2 h3; subst h3; exact Option.noConfusion h
    · rename_i a1a2 heq
      split at hout
      · injection hout with h1 h2 h3; subst h3; exact Option.noConfusion h
      · simp only [] at hout
        split at hout
        · rename_i hlt
          injection hout with h1 h2 h3
          subst h3
          injection h with hb
          injection hb with hb1 hb2
          subst hb1; subst hb2
          exact absurd hlt (not_lt.mpr hbd)
        · injection hout with h1 h2 h3
          exact h1.symm

end Claims

/-- C3 witness: a concrete global-mode query whose measurement returns 11
against bound 10 leaves the aggregate untouched. -/
theorem callback_early_exit_no_mutation_witness :
    (ICD.distanceDetailedCallback
      ⟨true, none, none, 10, true, false⟩
      ⟨ICD.BodyType.robotLink, 0, "a", "a", "a", []⟩
      ⟨ICD.BodyType.robotLink, 1, "b", "b", "b", []⟩
      (fun _ => (11, ⟨0, 0, 0⟩, ⟨0, 0, 0⟩))
      ⟨⟨10, ⟨0, 0, 0⟩, ⟨0, 0, 0⟩, "", ""⟩, [], false, false⟩).st
    = ⟨⟨10, ⟨0, 0, 0⟩, ⟨0, 0, 0⟩, "", ""⟩, [], false, false⟩ :=
  callback_early_exit_no_mutation _ _ _ _ _ 10 11 (by decide) (by decide)

/-- A successful map lookup returns an element of the list. -/
theorem mapLookup_mem (m : ICD.DistanceMap) (k : String) (v : ICD.DistanceResultsData)
    (h : ICD.mapLookup m k = some v) : (k, v) ∈ m := by
  induction m with
  | nil => simp [ICD.mapLookup] at h
  | cons p rest ih =>
    rcases p with ⟨k', v'⟩
    unfold ICD.mapLookup at h
    by_cases hk : k = k'
    · rw [if_pos hk] at h
      injection h with hv
      subst hk; subst hv
      exact List.mem_cons_self _ _
    · rw [if_neg hk] at h
      exact List.mem_cons_of_mem _ (ih h)

/-- The bound actually computed (source lines 178-213) agrees with the
active-side maximum rule whenever every stored distance is at most the
request threshold (an invariant of the query, since entries are only ever
stored with a distance strictly below some bound that never exceeds the
threshold). -/
theorem computeBound_eq_amendedBound (req : ICD.DistanceRequest)
    (cd1 cd2 : ICD.CollisionGeometryData) (st : ICD.QueryState) (a1 a2 : Bool)
    (hstored : ∀ p ∈ st.distance, p.2.min_distance ≤ req.distance_threshold)
    (hact : ICD.activeFlags req cd1 cd2 = some (a1, a2)) :
    ICD.computeBound req st a1 a2 cd1.objId cd2.objId =
      ICD.amendedBound req st a1 a2 cd1.objId cd2.objId := by
  have hT : ∀ (k : String) v, ICD.mapLookup st.distance k = some v →
      v.min_distance ≤ req.distance_threshold :=
    fun k v hv => hstored (k, v) (mapLookup_mem _ _ _ hv)
  unfold ICD.computeBound ICD.amendedBound
  cases hg : req.global
  · simp only [hg, Bool.not_false, if_true]
    cases hao : req.activeOnly with
    | none =>
      unfold ICD.activeFlags at hact
      rw [hao] at hact
      injection hact with h12
      have ha1 : a1 = true := (congrArg Prod.fst h12).symm
      have ha2 : a2 = true := (congrArg Prod.snd h12).symm
      subst ha1; subst ha2
      rcases he1 : ICD.mapLookup st.distance cd1.objId with _ | v1 <;>
        rcases he2 : ICD.mapLookup st.distance cd2.objId with _ | v2 <;>
          (try simp [hao, he1, he2, Option.elim]) <;>
            first
              | rfl
              | exact hT _ _ he1
              | exact hT _ _ he2
    | some s =>
      cases a1 <;> cases a2 <;>
        rcases he1 : ICD.mapLookup st.distance cd1.objId with _ | v1 <;>
          rcases he2 : ICD.mapLookup st.distance cd2.objId with _ | v2 <;>
            (try simp [hao, he1, he2, Option.elim]) <;>
              first
                | rfl
                | exact hT _ _ he1
                | exact hT _ _ he2
  · simp [hg]

/-- C2 (amended): for every candidate pair that reaches exact measurement,
the upper bound passed to the exact-distance computation is, in per-link
(non-global) mode, the larger over the sides marked active of that side's
currently-known best stored distance (defaulting to the request's
distance-threshold when that side has none), with an inactive side excluded
rather than defaulted; in global-only mode it is the current global minimum
distance.  The hypothesis that stored distances never exceed the threshold
is an invariant of the query. -/
theorem callback_bound_is_active_side_max (req : ICD.DistanceRequest)
    (cd1 cd2 : ICD.CollisionGeometryData) (measure : ℚ → ℚ × ICD.Vec3q × ICD.Vec3q)
    (st : ICD.QueryState) (b d : ℚ) (a1 a2 : Bool)
    (hstored : ∀ p ∈ st.distance, p.2.min_distance ≤ req.distance_threshold)
    (hact : ICD.activeFlags req cd1 cd2 = some (a1, a2))
    (h : (ICD.distanceDetailedCallback req cd1 cd2 measure st).measured = some (b, d)) :
    b = ICD.amendedBound req st a1 a2 cd1.objId cd2.objId := by
  have hb : b = ICD.computeBound req st a1 a2 cd1.objId cd2.objId := by
    rcases hout : ICD.distanceDetailedCallback req cd1 cd2 measure st with ⟨ost, oret, omeas⟩
    rw [hout] at h
    dsimp only at h
    unfold ICD.distanceDetailedCallback at hout
    split at hout
    · injection hout with h1 h2 h3; subst h3; exact Option.noConfusion h
    · split at hout
      · injection hout with h1 h2 h3; subst h3; exact Option.noConfusion h
      · rename_i f1 f2 heq
        have hfs := heq.symm.trans hact
        injection hfs with hp
        have hf1 : f1 = a1 := congrArg Prod.fst hp
        have hf2 : f2 = a2 := congrArg Prod.snd hp
        subst hf1; subst hf2
        split at hout
        · injection hout with h1 h2 h3; subst h3; exact Option.noConfusion h
        · simp only [] at hout
          split at hout
          · injection hout with h1 h2 h3
            subst h3
            injection h with hpair
            exact (congrArg Prod.fst hpair).symm
          · injection hout with h1 h2 h3
            subst h3
            injection h with hpair
            exact (congrArg Prod.fst hpair).symm
  rw [hb]
  exact computeBound_eq_amendedBound req cd1 cd2 st a1 a2 hstored hact

/-- C2 witness: a per-link query with one active side whose stored best is 1
under threshold 5; the bound passed is that side's stored best, 1. -/
theorem callback_bound_is_active_side_max_witness :
    (1 : ℚ) = ICD.amendedBound
      ⟨false, some ["L1"], none, 5, true, false⟩
      ⟨⟨5, ⟨0, 0, 0⟩, ⟨0, 0, 0⟩, "", ""⟩,
        [("A", ⟨1, ⟨0, 0, 0⟩, ⟨0, 0, 0⟩, "A", "X"⟩)], false, false⟩
      true false "A" "B" :=
  callback_bound_is_active_side_max
    ⟨false, some ["L1"], none, 5, true, false⟩
    ⟨ICD.BodyType.robotLink, 0, "A", "A", "L1", []⟩
    ⟨ICD.BodyType.robotLink, 1, "B", "B", "L2", []⟩
    (fun _ => (0, ⟨0, 0, 0⟩, ⟨0, 0, 0⟩))
    ⟨⟨5, ⟨0, 0, 0⟩, ⟨0, 0, 0⟩, "", ""⟩,
      [("A", ⟨1, ⟨0, 0, 0⟩, ⟨0, 0, 0⟩, "A", "X"⟩)], false, false⟩
    1 0 true false (by decide) (by decide) (by decide)

/-- C2 counterexample: in the same concrete situation — exactly one side
active, that side's stored best 1, threshold 5 — the code passes bound 1 to
the measurement, whereas the claim's rule ("the larger of the two sides'
currently-known best stored distances, defaulting to the request's
distance-threshold") yields max(1, 5) = 5. -/
theorem callback_bound_claim_counterexample :
    ((ICD.distanceDetailedCallback
        ⟨false, some ["L1"], none, 5, true, false⟩
        ⟨ICD.BodyType.robotLink, 0, "A", "A", "L1", []⟩
        ⟨ICD.BodyType.robotLink, 1, "B", "B", "L2", []⟩
        (fun _ => (0, ⟨0, 0, 0⟩, ⟨0, 0, 0⟩))
        ⟨⟨5, ⟨0, 0, 0⟩, ⟨0, 0, 0⟩, "", ""⟩,
          [("A", ⟨1, ⟨0, 0, 0⟩, ⟨0, 0, 0⟩, "A", "X"⟩)], false, false⟩).measured
      = some (1, 0)) ∧
    ICD.claimBound ⟨false, some ["L1"], none, 5, true, false⟩
      ⟨⟨5, ⟨0, 0, 0⟩, ⟨0, 0, 0⟩, "", ""⟩,
        [("A", ⟨1, ⟨0, 0, 0⟩, ⟨0, 0, 0⟩, "A", "X"⟩)], false, false⟩
      "A" "B" = 5 ∧ (1 : ℚ) ≠ 5 := by decide

/-- A spec-modelled `update` either leaves the entry unchanged or strictly
decreases its stored minimum distance. -/
theorem update_rel (v r : ICD.DistanceResultsData) :
    v.update r = v ∨ (v.update r).min_distance < v.min_distance := by
  unfold ICD.DistanceResultsData.update
  split
  · rename_i hlt; right; exact hlt
  · left; rfl

/-- "Unchanged or strictly smaller" composes. -/
theorem rel_trans (a b c : ICD.DistanceResultsData)
    (h1 : a = b ∨ a.min_distance < b.min_distance)
    (h2 : b = c ∨ b.min_distance < c.min_distance) :
    a = c ∨ a.min_distance < c.min_distance := by
  rcases h1 with rfl | h1 <;> rcases h2 with rfl | h2
  · left; rfl
  · right; exact h2
  · right; exact h1
  · right; exact h1.trans h2

/-- Lookup after an insert at a different key. -/
theorem mapLookup_mapInsert_ne (m : ICD.DistanceMap) (id k : String)
    (v : ICD.DistanceResultsData) (hne : k ≠ id) :
    ICD.mapLookup (ICD.mapInsert m id v) k = ICD.mapLookup m k := by
  induction m with
  | nil => simp [ICD.mapInsert, ICD.mapLookup, hne]
  | cons p rest ih =>
    rcases p with ⟨k', v'⟩
    unfold ICD.mapInsert
    by_cases h1 : id = k'
    · rw [if_pos h1]
    · rw [if_neg h1]
      unfold ICD.mapLookup
      by_cases h2 : k = k'
      · rw [if_pos h2, if_pos h2]
      · rw [if_neg h2, if_neg h2]
        exact ih

/-- Lookup after an in-place modification. -/
theorem mapLookup_mapModify (m : ICD.DistanceMap) (id k : String)
    (f : ICD.DistanceResultsData → ICD.DistanceResultsData) :
    ICD.mapLookup (ICD.mapModify m id f) k =
      if k = id then (ICD.mapLookup m k).map f else ICD.mapLookup m k := by
  induction m with
  | nil => by_cases h : k = id <;> simp [ICD.mapModify, ICD.mapLookup, h]
  | cons p rest ih =>
    rcases p with ⟨k', v'⟩
    by_cases h1 : id = k'
    · subst h1
      by_cases h2 : k = id
      · subst h2
        simp [ICD.mapModify, ICD.mapLookup]
      · simp [ICD.mapModify, ICD.mapLookup, h2, ih]
    · by_cases h2 : k = k'
      · subst h2
        have hki : ¬(k = id) := fun h => h1 h.symm
        simp [ICD.mapModify, ICD.mapLookup, h1, hki]
      · simp [ICD.mapModify, ICD.mapLookup, h1, h2, ih]

/-- One insert-or-update step on the per-link map keeps every previously
stored entry, unchanged or strictly improved. -/
theorem lookupRel_op (m : ICD.DistanceMap) (id k : String) (r : ICD.DistanceResultsData)
    (fnd : Option ICD.DistanceResultsData) (v1 : ICD.DistanceResultsData)
    (hv : ICD.mapLookup m k = some v1) (hne : fnd = none → k ≠ id) :
    ∃ v2, ICD.mapLookup
        (match fnd with
         | none => ICD.mapInsert m id r
         | some _ => ICD.mapModify m id (fun w => w.update r)) k = some v2 ∧
      (v2 = v1 ∨ v2.min_distance < v1.min_distance) := by
  cases fnd with
  | none =>
    refine ⟨v1, ?_, Or.inl rfl⟩
    rw [mapLookup_mapInsert_ne _ _ _ _ (hne rfl)]
    exact hv
  | some w =>
    by_cases hk : k = id
    · refine ⟨v1.update r, ?_, update_rel v1 r⟩
      rw [mapLookup_mapModify, if_pos hk, hv]
      rfl
    · refine ⟨v1, ?_, Or.inl rfl⟩
      rw [mapLookup_mapModify, if_neg hk]
      exact hv

/-- The mutation phase always writes `update` of the previous global
minimum. -/
theorem applyMeasurement_min (req : ICD.DistanceRequest) (cd1 cd2 : ICD.CollisionGeometryData)
    (a1 a2 : Bool) (st : ICD.QueryState) (d : ℚ) (p1 p2 : ICD.Vec3q) :
    (ICD.applyMeasurement req cd1 cd2 a1 a2 st d p1 p2).minimum_distance =
      st.minimum_distance.update
        ⟨d, p1, p2, cd1.objId, cd2.objId⟩ := by
  unfold ICD.applyMeasurement
  simp only []
  split
  · rfl
  · split <;> rfl

/-- The mutation phase keeps every previously stored per-link entry,
unchanged or strictly improved. -/
theorem applyMeasurement_lookup (req : ICD.DistanceRequest)
    (cd1 cd2 : ICD.CollisionGeometryData) (a1 a2 : Bool) (st : ICD.QueryState)
    (d : ℚ) (p1 p2 : ICD.Vec3q) (k : String) (v : ICD.DistanceResultsData)
    (hv : ICD.mapLookup st.distance k = some v) :
    ∃ v', ICD.mapLookup (ICD.applyMeasurement req cd1 cd2 a1 a2 st d p1 p2).distance k
        = some v' ∧ (v' = v ∨ v'.min_distance < v.min_distance) := by
  have step : ∀ (m : ICD.DistanceMap) (act : Bool) (id : String)
      (fnd : Option ICD.DistanceResultsData) (r v1 : ICD.DistanceResultsData),
      ICD.mapLookup m k = some v1 → (fnd = none → k ≠ id) →
      ∃ v2,
        ICD.mapLookup
          (if act then
            match fnd with
            | none => ICD.mapInsert m id r
            | some _ => ICD.mapModify m id (fun w => w.update r)
          else m) k = some v2 ∧ (v2 = v1 ∨ v2.min_distance < v1.min_distance) := by
    intro m act id fnd r v1 h1 h2
    cases act
    · exact ⟨v1, by simpa using h1, Or.inl rfl⟩
    · simpa using lookupRel_op m id k r fnd v1 h1 h2
  have hne1 : ICD.mapLookup st.distance cd1.objId = none → k ≠ cd1.objId := by
    intro h0 hk
    rw [hk, h0] at hv
    exact Option.noConfusion hv
  have hne2 : ICD.mapLookup st.distance cd2.objId = none → k ≠ cd2.objId := by
    intro h0 hk
    rw [hk, h0] at hv
    exact Option.noConfusion hv
  unfold ICD.applyMeasurement
  simp only []
  split
  · obtain ⟨w1, hw1, hr1⟩ :=
      step st.distance a1 cd1.objId (ICD.mapLookup st.distance cd1.objId) _ v hv hne1
    obtain ⟨w2, hw2, hr2⟩ :=
      step _ a2 cd2.objId (ICD.mapLookup st.distance cd2.objId) _ w1 hw1 hne2
    exact ⟨w2, hw2, rel_trans _ _ _ hr2 hr1⟩
  · split
    · exact ⟨v, hv, Or.inl rfl⟩
    · exact ⟨v, hv, Or.inl rfl⟩

/-- The callback either leaves the aggregate untouched or applies exactly
one measurement mutation. -/
theorem callback_st_cases (req : ICD.DistanceRequest) (cd1 cd2 : ICD.CollisionGeometryData)
    (measure : ℚ → ℚ × ICD.Vec3q × ICD.Vec3q) (st : ICD.QueryState) :
    (ICD.distanceDetailedCallback req cd1 cd2 measure st).st = st ∨
    ∃ a1 a2 d p1 p2, (ICD.distanceDetailedCallback req cd1 cd2 measure st).st =
      ICD.applyMeasurement req cd1 cd2 a1 a2 st d p1 p2 := by
  unfold ICD.distanceDetailedCallback
  split
  · left; rfl
  · split
    · left; rfl
    · rename_i f1 f2 heq
      split
      · left; rfl
      · simp only []
        split
        · right; exact ⟨f1, f2, _, _, _, rfl⟩
        · left; rfl

/-- C4: within one query, stored minimum distances are non-increasing and an
update replaces a stored value only when the new distance is strictly
smaller: across one callback invocation this holds for the global
minimum-distance entry and for every body identifier already present in the
per-link result map, and the per-child update of `distanceSelfHelper`
likewise never increases the entry's stored minimum. -/
theorem stored_minimum_monotone (req : ICD.DistanceRequest)
    (cd1 cd2 : ICD.CollisionGeometryData) (measure : ℚ → ℚ × ICD.Vec3q × ICD.Vec3q)
    (st : ICD.QueryState) (k : String) (v : ICD.DistanceResultsData)
    (hv : ICD.mapLookup st.distance k = some v) :
    ((ICD.distanceDetailedCallback req cd1 cd2 measure st).st.minimum_distance
        = st.minimum_distance ∨
      (ICD.distanceDetailedCallback req cd1 cd2 measure st).st.minimum_distance.min_distance
        < st.minimum_distance.min_distance) ∧
    (∃ v', ICD.mapLookup (ICD.distanceDetailedCallback req cd1 cd2 measure st).st.distance k
        = some v' ∧ (v' = v ∨ v'.min_distance < v.min_distance)) ∧
    ∀ (data : OVDB.DistanceQueryData) (sdfs : OVDB.Role → Nat → OVDB.SDFData) (bg : ℝ)
      (acc : OVDB.HelperAcc) (c : String × OVDB.Role × Nat),
      (OVDB.distanceSelfChild data sdfs bg acc c).res.min_distance = acc.res.min_distance ∨
      (OVDB.distanceSelfChild data sdfs bg acc c).res.min_distance < acc.res.min_distance := by
  refine ⟨?_, ?_, ?_⟩
  · rcases callback_st_cases req cd1 cd2 measure st with hst | ⟨a1, a2, d, p1, p2, hst⟩
    · left; rw [hst]
    · rw [hst, applyMeasurement_min]
      exact update_rel _ _
  · rcases callback_st_cases req cd1 cd2 measure st with hst | ⟨a1, a2, d, p1, p2, hst⟩
    · exact ⟨v, by rw [hst]; exact hv, Or.inl rfl⟩
    · rw [hst]
      exact applyMeasurement_lookup req cd1 cd2 a1 a2 st d p1 p2 k v hv
  · intro data sdfs bg acc c
    unfold OVDB.distanceSelfChild
    simp only []
    repeat' split
    all_goals first
      | (left; rfl)
      | (right; assumption)

/-- C4 witness: a concrete per-link callback run on a map holding key "A"
at distance 3; the measured distance 1 strictly improves it, the global
minimum drops, and the helper-step clause is instantiated at a concrete
child. -/
theorem stored_minimum_monotone_witness :
    ((ICD.distanceDetailedCallback
        ⟨false, none, none, 5, true, false⟩
        ⟨ICD.BodyType.robotLink, 0, "A", "A", "A", []⟩
        ⟨ICD.BodyType.robotLink, 1, "B", "B", "B", []⟩
        (fun _ => (1, ⟨0, 0, 0⟩, ⟨0, 0, 0⟩))
        ⟨⟨4, ⟨0, 0, 0⟩, ⟨0, 0, 0⟩, "", ""⟩,
          [("A", ⟨3, ⟨0, 0, 0⟩, ⟨0, 0, 0⟩, "A", "X"⟩)], false, false⟩).st.minimum_distance
        = ⟨4, ⟨0, 0, 0⟩, ⟨0, 0, 0⟩, "", ""⟩ ∨
      (ICD.distanceDetailedCallback
        ⟨false, none, none, 5, true, false⟩
        ⟨ICD.BodyType.robotLink, 0, "A", "A", "A", []⟩
        ⟨ICD.BodyType.robotLink, 1, "B", "B", "B", []⟩
        (fun _ => (1, ⟨0, 0, 0⟩, ⟨0, 0, 0⟩))
        ⟨⟨4, ⟨0, 0, 0⟩, ⟨0, 0, 0⟩, "", ""⟩,
          [("A", ⟨3, ⟨0, 0, 0⟩, ⟨0, 0, 0⟩, "A", "X"⟩)], false, false⟩).st.minimum_distance.min_distance
        < (4 : ℚ)) ∧
    (∃ v', ICD.mapLookup (ICD.distanceDetailedCallback
        ⟨false, none, none, 5, true, false⟩
        ⟨ICD.BodyType.robotLink, 0, "A", "A", "A", []⟩
        ⟨ICD.BodyType.robotLink, 1, "B", "B", "B", []⟩
        (fun _ => (1, ⟨0, 0, 0⟩, ⟨0, 0, 0⟩))
        ⟨⟨4, ⟨0, 0, 0⟩, ⟨0, 0, 0⟩, "", ""⟩,
          [("A", ⟨3, ⟨0, 0, 0⟩, ⟨0, 0, 0⟩, "A", "X"⟩)], false, false⟩).st.distance "A"
        = some v' ∧
      (v' = ⟨3, ⟨0, 0, 0⟩, ⟨0, 0, 0⟩, "A", "X"⟩ ∨ v'.min_distance < (3 : ℚ))) ∧
    ∀ (data : OVDB.DistanceQueryData) (sdfs : OVDB.Role → Nat → OVDB.SDFData) (bg : ℝ)
      (acc : OVDB.HelperAcc) (c : String × OVDB.Role × Nat),
      (OVDB.distanceSelfChild data sdfs bg acc c).res.min_distance = acc.res.min_distance ∨
      (OVDB.distanceSelfChild data sdfs bg acc c).res.min_distance < acc.res.min_distance :=
  stored_minimum_monotone
    ⟨false, none, none, 5, true, false⟩
    ⟨ICD.BodyType.robotLink, 0, "A", "A", "A", []⟩
    ⟨ICD.BodyType.robotLink, 1, "B", "B", "B", []⟩
    (fun _ => (1, ⟨0, 0, 0⟩, ⟨0, 0, 0⟩))
    ⟨⟨4, ⟨0, 0, 0⟩, ⟨0, 0, 0⟩, "", ""⟩,
      [("A", ⟨3, ⟨0, 0, 0⟩, ⟨0, 0, 0⟩, "A", "X"⟩)], false, false⟩
    "A" ⟨3, ⟨0, 0, 0⟩, ⟨0, 0, 0⟩, "A", "X"⟩ (by decide)

/-- Closed form of the `getDistanceInfo` loop: one emitted entry per input
entry, conjunction of per-entry statuses, sum of per-entry error counts. -/
theorem getDistanceInfoFold_closed (tf nv : ICD.Vec3q → ICD.Vec3q)
    (uninit : ICD.DistanceInfo) :
    ∀ (dd : List (String × ICD.DistanceResultsData))
      (acc : Bool × List (String × ICD.DistanceInfo) × Nat),
    ICD.getDistanceInfoFold tf nv uninit acc dd =
      (acc.1 && dd.all (fun e => (ICD.getDistanceInfoStep tf nv uninit e.1 e.2).2.1),
       acc.2.1 ++ dd.map (fun e => (e.1, (ICD.getDistanceInfoStep tf nv uninit e.1 e.2).1)),
       acc.2.2 + (dd.map (fun e => (ICD.getDistanceInfoStep tf nv uninit e.1 e.2).2.2)).sum) := by
  intro dd
  induction dd with
  | nil => intro acc; simp [ICD.getDistanceInfoFold]
  | cons e rest ih =>
    intro acc
    have h1 : ICD.getDistanceInfoFold tf nv uninit acc (e :: rest)
        = ICD.getDistanceInfoFold tf nv uninit
            (acc.1 && (ICD.getDistanceInfoStep tf nv uninit e.1 e.2).2.1,
             acc.2.1 ++ [(e.1, (ICD.getDistanceInfoStep tf nv uninit e.1 e.2).1)],
             acc.2.2 + (ICD.getDistanceInfoStep tf nv uninit e.1 e.2).2.2) rest := rfl
    rw [h1, ih]
    simp [Bool.and_assoc, Nat.add_assoc]

/-- The mismatch branch of one `getDistanceInfo` entry: warning, failure
flag, and the untouched default-constructed info. -/
theorem getDistanceInfoStep_mismatch (tf nv : ICD.Vec3q → ICD.Vec3q)
    (uninit : ICD.DistanceInfo) (key : String) (dist : ICD.DistanceResultsData)
    (h0 : dist.link_name0 ≠ key) (h1 : dist.link_name1 ≠ key) :
    ICD.getDistanceInfoStep tf nv uninit key dist = (uninit, false, 1) := by
  unfold ICD.getDistanceInfoStep
  rw [if_neg h0, if_neg h1]

/-- A matching entry neither fails nor warns. -/
theorem getDistanceInfoStep_match (tf nv : ICD.Vec3q → ICD.Vec3q)
    (uninit : ICD.DistanceInfo) (key : String) (dist : ICD.DistanceResultsData)
    (h : dist.link_name0 = key ∨ dist.link_name1 = key) :
    (ICD.getDistanceInfoStep tf nv uninit key dist).2.1 = true ∧
    (ICD.getDistanceInfoStep tf nv uninit key dist).2.2 = 0 := by
  unfold ICD.getDistanceInfoStep
  by_cases h0 : dist.link_name0 = key
  · rw [if_pos h0]; exact ⟨rfl, rfl⟩
  · rcases h with h | h
    · exact absurd h h0
    · rw [if_neg h0, if_pos h]; exact ⟨rfl, rfl⟩

/-- Whether neither recorded identifier of an entry matches its map key. -/
def entryMismatch (e : String × ICD.DistanceResultsData) : Bool :=
  !(e.2.link_name0 = e.1 || e.2.link_name1 = e.1)

/-- Per-entry error count is the mismatch indicator. -/
theorem getDistanceInfoStep_warn (tf nv : ICD.Vec3q → ICD.Vec3q)
    (uninit : ICD.DistanceInfo) (e : String × ICD.DistanceResultsData) :
    (ICD.getDistanceInfoStep tf nv uninit e.1 e.2).2.2 =
      if entryMismatch e then 1 else 0 := by
  by_cases h0 : e.2.link_name0 = e.1
  · rw [(getDistanceInfoStep_match tf nv uninit e.1 e.2 (Or.inl h0)).2]
    simp [entryMismatch, h0]
  · by_cases h1 : e.2.link_name1 = e.1
    · rw [(getDistanceInfoStep_match tf nv uninit e.1 e.2 (Or.inr h1)).2]
      simp [entryMismatch, h1]
    · rw [getDistanceInfoStep_mismatch tf nv uninit e.1 e.2 h0 h1]
      simp [entryMismatch, h0, h1]

/-- The total error count equals the number of mismatched entries. -/
theorem getDistanceInfo_warn_count (tf nv : ICD.Vec3q → ICD.Vec3q)
    (uninit : ICD.DistanceInfo) (dd : List (String × ICD.DistanceResultsData)) :
    (dd.map (fun e => (ICD.getDistanceInfoStep tf nv uninit e.1 e.2).2.2)).sum =
      dd.countP entryMismatch := by
  induction dd with
  | nil => rfl
  | cons e rest ih =>
    rw [List.map_cons, List.sum_cons, ih, List.countP_cons,
      getDistanceInfoStep_warn tf nv uninit e]
    by_cases h : entryMismatch e <;> simp [h, Nat.add_comm]

/-- C9 (amended): for an input entry whose stored record matches the map key
on neither recorded identifier, `getDistanceInfo` logs the error (one count
per mismatched entry), makes the overall boolean return false, continues
processing all remaining entries (one output entry per input entry) — and,
rather than skipping the entry entirely, inserts the default-constructed
(partially uninitialized) Distance Info under that key. -/
theorem getDistanceInfo_mismatch_entry (tf nv : ICD.Vec3q → ICD.Vec3q)
    (uninit : ICD.DistanceInfo) (dd : List (String × ICD.DistanceResultsData))
    (e : String × ICD.DistanceResultsData) (he : e ∈ dd)
    (h0 : e.2.link_name0 ≠ e.1) (h1 : e.2.link_name1 ≠ e.1) :
    (ICD.getDistanceInfo tf nv uninit dd).1 = false ∧
    (ICD.getDistanceInfo tf nv uninit dd).2.1.length = dd.length ∧
    (e.1, uninit) ∈ (ICD.getDistanceInfo tf nv uninit dd).2.1 ∧
    (ICD.getDistanceInfo tf nv uninit dd).2.2 = dd.countP entryMismatch ∧
    1 ≤ dd.countP entryMismatch := by
  unfold ICD.getDistanceInfo
  rw [getDistanceInfoFold_closed]
  refine ⟨?_, ?_, ?_, ?_, ?_⟩
  · simp only [Bool.true_and]
    refine List.all_eq_false.mpr ⟨e, he, ?_⟩
    rw [getDistanceInfoStep_mismatch tf nv uninit e.1 e.2 h0 h1]
    simp
  · simp
  · simp only [List.nil_append]
    exact List.mem_map.mpr
      ⟨e, he, by rw [getDistanceInfoStep_mismatch tf nv uninit e.1 e.2 h0 h1]⟩
  · simp only [Nat.zero_add]
    exact getDistanceInfo_warn_count tf nv uninit dd
  · exact List.countP_pos_iff.mpr ⟨e, he, by simp [entryMismatch, h0, h1]⟩

/-- C9 witness: a single mismatched entry under key "A" yields overall
failure, one output entry, the placeholder under "A", and one logged error. -/
theorem getDistanceInfo_mismatch_entry_witness :
    (ICD.getDistanceInfo (fun v => v) (fun v => v)
        ⟨"U", ⟨0, 0, 0⟩, ⟨0, 0, 0⟩, ⟨0, 0, 0⟩, 0⟩
        [("A", ⟨1, ⟨0, 0, 0⟩, ⟨0, 0, 0⟩, "B", "C"⟩)]).1 = false ∧
    (ICD.getDistanceInfo (fun v => v) (fun v => v)
        ⟨"U", ⟨0, 0, 0⟩, ⟨0, 0, 0⟩, ⟨0, 0, 0⟩, 0⟩
        [("A", ⟨1, ⟨0, 0, 0⟩, ⟨0, 0, 0⟩, "B", "C"⟩)]).2.1.length
      = [("A", (⟨1, ⟨0, 0, 0⟩, ⟨0, 0, 0⟩, "B", "C"⟩ : ICD.DistanceResultsData))].length ∧
    ("A", (⟨"U", ⟨0, 0, 0⟩, ⟨0, 0, 0⟩, ⟨0, 0, 0⟩, 0⟩ : ICD.DistanceInfo))
      ∈ (ICD.getDistanceInfo (fun v => v) (fun v => v)
          ⟨"U", ⟨0, 0, 0⟩, ⟨0, 0, 0⟩, ⟨0, 0, 0⟩, 0⟩
          [("A", ⟨1, ⟨0, 0, 0⟩, ⟨0, 0, 0⟩, "B", "C"⟩)]).2.1 ∧
    (ICD.getDistanceInfo (fun v => v) (fun v => v)
        ⟨"U", ⟨0, 0, 0⟩, ⟨0, 0, 0⟩, ⟨0, 0, 0⟩, 0⟩
        [("A", ⟨1, ⟨0, 0, 0⟩, ⟨0, 0, 0⟩, "B", "C"⟩)]).2.2
      = [("A", (⟨1, ⟨0, 0, 0⟩, ⟨0, 0, 0⟩, "B", "C"⟩ : ICD.DistanceResultsData))].countP
          entryMismatch ∧
    1 ≤ [("A", (⟨1, ⟨0, 0, 0⟩, ⟨0, 0, 0⟩, "B", "C"⟩ : ICD.DistanceResultsData))].countP
          entryMismatch :=
  getDistanceInfo_mismatch_entry (fun v => v) (fun v => v)
    ⟨"U", ⟨0, 0, 0⟩, ⟨0, 0, 0⟩, ⟨0, 0, 0⟩, 0⟩
    [("A", ⟨1, ⟨0, 0, 0⟩, ⟨0, 0, 0⟩, "B", "C"⟩)]
    ("A", ⟨1, ⟨0, 0, 0⟩, ⟨0, 0, 0⟩, "B", "C"⟩)
    (by decide) (by decide) (by decide)

/-- C9 counterexample: the claim says no Distance Info is emitted for a
mismatched key; on a one-entry map whose record names neither identifier
equal to its key "A", the code still emits an entry for "A" (holding the
untouched default-constructed info), while reporting failure and one error. -/
theorem getDistanceInfo_skip_counterexample :
    (ICD.getDistanceInfo (fun v => v) (fun v => v)
        ⟨"U", ⟨0, 0, 0⟩, ⟨0, 0, 0⟩, ⟨0, 0, 0⟩, 0⟩
        [("A", ⟨1, ⟨0, 0, 0⟩, ⟨0, 0, 0⟩, "B", "C"⟩)]).2.1
      = [("A", ⟨"U", ⟨0, 0, 0⟩, ⟨0, 0, 0⟩, ⟨0, 0, 0⟩, 0⟩)] ∧
    (ICD.getDistanceInfo (fun v => v) (fun v => v)
        ⟨"U", ⟨0, 0, 0⟩, ⟨0, 0, 0⟩, ⟨0, 0, 0⟩, 0⟩
        [("A", ⟨1, ⟨0, 0, 0⟩, ⟨0, 0, 0⟩, "B", "C"⟩)]).1 = false := by
  decide

/-- A successful `erase(remove(...))` on a duplicate-free vector removes
exactly one occurrence; on a vector not containing the element it is
undefined behavior (`none`). -/
theorem eraseRemove_spec (v : List Nat) (x : Nat) (w : List Nat) (hnd : v.Nodup)
    (h : OVDB.eraseRemove v x = some w) : x ∈ v ∧ w = v.erase x := by
  unfold OVDB.eraseRemove at h
  simp only [] at h
  split at h
  · exact Option.noConfusion h
  · rename_i hlen
    injection h with hw
    have hfe : v.filter (fun y => y ≠ x) = v.erase x := by
      rw [List.Nodup.erase_eq_filter hnd]
      apply List.filter_congr
      intro y _
      by_cases hyx : y = x <;> simp [hyx, bne]
    have hx : x ∈ v := by
      by_contra hxn
      exact hlen (congrArg List.length
        (List.filter_eq_self.mpr (fun y hy => by
          simp only [decide_eq_true_eq]
          exact fun hyx => hxn (hyx ▸ hy))))
    refine ⟨hx, ?_⟩
    have hlen2 : (v.filter (fun y => y ≠ x)).length + 1 = v.length := by
      rw [hfe]
      exact List.length_erase_add_one hx
    have hdrop : v.drop ((v.filter (fun y => y ≠ x)).length + 1) = [] := by
      rw [hlen2]
      exact List.drop_length v
    rw [← hw, hdrop, List.append_nil, hfe]

/-- Folding `erase(remove(...))` over a list of removal targets succeeds
exactly when it stays defined, in which case the survivors are the elements
hit by no removal, the targets are pairwise distinct, and every target was
present. -/
theorem removeAll_spec : ∀ (xs v w : List Nat), v.Nodup →
    xs.foldlM OVDB.eraseRemove v = some w →
    w.Nodup ∧ (∀ y, y ∈ w ↔ (y ∈ v ∧ y ∉ xs)) ∧ xs.Nodup ∧ (∀ x ∈ xs, x ∈ v) := by
  intro xs
  induction xs with
  | nil =>
    intro v w hnd h
    simp only [List.foldlM_nil] at h
    injection h with h
    subst h
    exact ⟨hnd, fun y => by simp, List.nodup_nil, by simp⟩
  | cons x rest ih =>
    intro v w hnd h
    rw [List.foldlM_cons] at h
    rcases h1 : OVDB.eraseRemove v x with _ | v1
    · rw [h1] at h
      exact Option.noConfusion h
    · rw [h1] at h
      replace h : rest.foldlM OVDB.eraseRemove v1 = some w := h
      obtain ⟨hx, hv1⟩ := eraseRemove_spec v x v1 hnd h1
      subst hv1
      have hnd1 : (v.erase x).Nodup := hnd.erase x
      obtain ⟨hwnd, hchar, hrestnd, hsub⟩ := ih (v.erase x) w hnd1 h
      refine ⟨hwnd, ?_, ?_, ?_⟩
      · intro y
        rw [hchar y, List.Nodup.mem_erase_iff hnd]
        constructor
        · rintro ⟨⟨hyx, hyv⟩, hyr⟩
          refine ⟨hyv, ?_⟩
          simp only [List.mem_cons, not_or]
          exact ⟨hyx, hyr⟩
        · rintro ⟨hyv, hyxr⟩
          simp only [List.mem_cons, not_or] at hyxr
          exact ⟨⟨hyxr.1, hyv⟩, hyxr.2⟩
      · refine List.nodup_cons.mpr ⟨?_, hrestnd⟩
        intro hxr
        exact List.Nodup.not_mem_erase hnd (hsub x hxr)
      · intro z hz
        rcases List.mem_cons.mp hz with hzx | hzr
        · exact hzx ▸ hx
        · exact (List.Nodup.mem_erase_iff hnd).mp (hsub z hzr) |>.2

/-- C1 (amended): whenever the constructor's role classification completes
without undefined behavior (`createDynamicSDFs`'s `erase(remove(...))` of an
element that is no longer present — which is exactly what happens when the
walks classify some link twice), the three sequences partition the
collision-bearing links: every link with collision geometry lies in at
least one sequence, every sequence holds only such links, and no link lies
in two sequences. -/
theorem role_sets_partition (m : OVDB.RobotModel) (fuel : Nat)
    (s a d : List Nat) (hnd : m.links.Nodup)
    (h : OVDB.constructLinks m fuel = some (s, a, d)) :
    (∀ l, l ∈ m.links ↔ (l ∈ s ∨ l ∈ a ∨ l ∈ d)) ∧
    (∀ l, ¬(l ∈ s ∧ l ∈ a)) ∧ (∀ l, ¬(l ∈ s ∧ l ∈ d)) ∧ (∀ l, ¬(l ∈ a ∧ l ∈ d)) := by
  unfold OVDB.constructLinks at h
  simp only [] at h
  rcases hmap : OVDB.createDynamicSDFsLinks m (OVDB.createStaticSDFsLinks m fuel)
      (OVDB.createActiveSDFsLinks m) with _ | d0
  · rw [hmap] at h
    exact Option.noConfusion h
  · rw [hmap] at h
    simp only [Option.map_some'] at h
    injection h with htriple
    have hs : OVDB.createStaticSDFsLinks m fuel = s := congrArg Prod.fst htriple
    have ha : OVDB.createActiveSDFsLinks m = a :=
      congrArg Prod.fst (congrArg Prod.snd htriple)
    have hd0 : d0 = d := congrArg Prod.snd (congrArg Prod.snd htriple)
    rw [hs, ha] at hmap
    subst hd0
    unfold OVDB.createDynamicSDFsLinks at hmap
    rcases h1 : s.foldlM OVDB.eraseRemove m.links with _ | d1
    · rw [h1] at hmap
      exact Option.noConfusion hmap
    · rw [h1] at hmap
      replace hmap : a.foldlM OVDB.eraseRemove d1 = some d0 := hmap
      obtain ⟨hd1nd, hd1char, hsnd, hssub⟩ := removeAll_spec s m.links d1 hnd h1
      obtain ⟨hdnd, hdchar, hand, hasub⟩ := removeAll_spec a d1 d0 hd1nd hmap
      refine ⟨?_, ?_, ?_, ?_⟩
      · intro l
        constructor
        · intro hl
          by_cases hls : l ∈ s
          · exact Or.inl hls
          · by_cases hla : l ∈ a
            · exact Or.inr (Or.inl hla)
            · exact Or.inr (Or.inr ((hdchar l).mpr ⟨(hd1char l).mpr ⟨hl, hls⟩, hla⟩))
        · rintro (hl | hl | hl)
          · exact hssub l hl
          · exact ((hd1char l).mp (hasub l hl)).1
          · exact ((hd1char l).mp ((hdchar l).mp hl).1).1
      · rintro l ⟨hls, hla⟩
        exact ((hd1char l).mp (hasub l hla)).2 hls
      · rintro l ⟨hls, hld⟩
        exact ((hd1char l).mp ((hdchar l).mp hld).1).2 hls
      · rintro l ⟨hla, hld⟩
        exact ((hdchar l).mp hld).2 hla

/-- Kinematic model in which collision-bearing link 1 is both fixed to the
root and a member of a planning group; the root carries collision geometry
as well. -/
def overlapModel : OVDB.RobotModel :=
  { root := 0, links := [0, 1],
    fixedAdj := fun n => if n = 0 then [1] else [],
    groups := [("manipulator", [1])],
    linkName := fun n => toString n }

/-- C1 counterexample: on a valid (duplicate-free) kinematic model in which
link 1 is both fixed-connected to the root and a planning-group member,
link 1 is placed in both `static_links_` and `active_links_` — it appears
in two of the three sequences — and the dynamic-set construction then
erases a past-the-end iterator (undefined behavior, `none`). -/
theorem role_partition_counterexample :
    overlapModel.links.Nodup ∧
    1 ∈ OVDB.createStaticSDFsLinks overlapModel 5 ∧
    1 ∈ OVDB.createActiveSDFsLinks overlapModel ∧
    OVDB.constructLinks overlapModel 5 = none := by decide

/-- Disjoint kinematic model: link 1 fixed to the root, link 2 in the only
planning group, link 3 neither. -/
def disjointModel : OVDB.RobotModel :=
  { root := 0, links := [1, 2, 3],
    fixedAdj := fun n => if n = 0 then [1] else [],
    groups := [("manipulator", [2])],
    linkName := fun n => toString n }

/-- C1 witness: on the disjoint model the constructor succeeds with
`static = [1]`, `active = [2]`, `dynamic = [3]`, and the partition holds. -/
theorem role_sets_partition_witness :
    (∀ l, l ∈ disjointModel.links ↔ (l ∈ [1] ∨ l ∈ [2] ∨ l ∈ [3])) ∧
    (∀ l, ¬(l ∈ ([1] : List Nat) ∧ l ∈ ([2] : List Nat))) ∧
    (∀ l, ¬(l ∈ ([1] : List Nat) ∧ l ∈ ([3] : List Nat))) ∧
    (∀ l, ¬(l ∈ ([2] : List Nat) ∧ l ∈ ([3] : List Nat))) :=
  role_sets_partition disjointModel 5 [1] [2] [3] (by decide) (by decide)

/-- The fixed-transform walk produces the same static sequence from two
considered lists that agree on every link except the root, provided the
root never occurs in any associated-fixed-transform map — the walk then
never tests the root for membership. -/
theorem fixedWalk_root_seed_irrelevant (m : OVDB.RobotModel)
    (hroot : ∀ l, m.root ∉ m.fixedAdj l) :
    ∀ (fuel link : Nat) (acc1 acc2 : List Nat × List Nat),
      acc1.1 = acc2.1 → (∀ x, x ≠ m.root → (x ∈ acc1.2 ↔ x ∈ acc2.2)) →
      (OVDB.fixedWalk m fuel link acc1).1 = (OVDB.fixedWalk m fuel link acc2).1 ∧
      (∀ x, x ≠ m.root →
        (x ∈ (OVDB.fixedWalk m fuel link acc1).2 ↔ x ∈ (OVDB.fixedWalk m fuel link acc2).2)) := by
  intro fuel
  induction fuel with
  | zero =>
    intro link acc1 acc2 h1 h2
    exact ⟨h1, h2⟩
  | succ fuel ih =>
    intro link acc1 acc2 h1 h2
    have key : ∀ (cs : List Nat), (∀ c ∈ cs, c ≠ m.root) →
        ∀ (acc1 acc2 : List Nat × List Nat), acc1.1 = acc2.1 →
        (∀ x, x ≠ m.root → (x ∈ acc1.2 ↔ x ∈ acc2.2)) →
        (cs.foldl (fun acc c =>
            if c ∈ acc.2 then acc
            else OVDB.fixedWalk m fuel c
              (if c ∈ m.links then acc.1 ++ [c] else acc.1, acc.2 ++ [c])) acc1).1 =
          (cs.foldl (fun acc c =>
            if c ∈ acc.2 then acc
            else OVDB.fixedWalk m fuel c
              (if c ∈ m.links then acc.1 ++ [c] else acc.1, acc.2 ++ [c])) acc2).1 ∧
        (∀ x, x ≠ m.root →
          (x ∈ (cs.foldl (fun acc c =>
              if c ∈ acc.2 then acc
              else OVDB.fixedWalk m fuel c
                (if c ∈ m.links then acc.1 ++ [c] else acc.1, acc.2 ++ [c])) acc1).2 ↔
           x ∈ (cs.foldl (fun acc c =>
              if c ∈ acc.2 then acc
              else OVDB.fixedWalk m fuel c
                (if c ∈ m.links then acc.1 ++ [c] else acc.1, acc.2 ++ [c])) acc2).2)) := by
      intro cs
      induction cs with
      | nil =>
        intro _ acc1 acc2 h1 h2
        exact ⟨h1, h2⟩
      | cons c rest ihc =>
        intro hcs acc1 acc2 h1 h2
        have hc : c ≠ m.root := hcs c (List.mem_cons_self c rest)
        simp only [List.foldl_cons]
        by_cases hmem : c ∈ acc1.2
        · have hmem2 : c ∈ acc2.2 := (h2 c hc).mp hmem
          rw [if_pos hmem, if_pos hmem2]
          exact ihc (fun z hz => hcs z (List.mem_cons_of_mem c hz)) acc1 acc2 h1 h2
        · have hmem2 : c ∉ acc2.2 := fun hx => hmem ((h2 c hc).mpr hx)
          rw [if_neg hmem, if_neg hmem2]
          have hstep := ih c
            (if c ∈ m.links then acc1.1 ++ [c] else acc1.1, acc1.2 ++ [c])
            (if c ∈ m.links then acc2.1 ++ [c] else acc2.1, acc2.2 ++ [c])
            (by rw [h1]) (fun x hx => by simp [List.mem_append, h2 x hx])
          exact ihc (fun z hz => hcs z (List.mem_cons_of_mem c hz)) _ _ hstep.1 hstep.2
    have hadj : ∀ c ∈ m.fixedAdj link, c ≠ m.root :=
      fun c hcmem heq => hroot link (heq ▸ hcmem)
    exact key (m.fixedAdj link) hadj acc1 acc2 h1 h2

/-- C10 (amended): the standalone classifier `identifyStaticLinks` (which
seeds its considered set with the root) returns exactly the sequence
accumulated by the constructor path `createStaticSDFs` +
`addAssociatedFixedTransforms` (which starts from an empty visited list),
provided the root link never appears in any link's
associated-fixed-transform map.  When it does, the constructor path can
re-visit the root and duplicate it. -/
theorem identifyStaticLinks_matches_ctor (m : OVDB.RobotModel) (fuel : Nat)
    (hroot : ∀ l, m.root ∉ m.fixedAdj l) :
    OVDB.identifyStaticLinks m fuel = OVDB.createStaticSDFsLinks m fuel := by
  unfold OVDB.identifyStaticLinks OVDB.createStaticSDFsLinks
  simp only []
  exact (fixedWalk_root_seed_irrelevant m hroot fuel m.root
    (if m.root ∈ m.links then [m.root] else [], [m.root])
    (if m.root ∈ m.links then [m.root] else [], [])
    rfl (fun x hx => by simp [hx])).1

/-- Kinematic model whose fixed-transform maps are symmetric between root 0
and link 1 (as MoveIt's associated fixed transforms are within a fixed
cluster), with the root carrying collision geometry. -/
def rootRevisitModel : OVDB.RobotModel :=
  { root := 0, links := [0, 1],
    fixedAdj := fun n => if n = 0 then [1] else if n = 1 then [0] else [],
    groups := [],
    linkName := fun n => toString n }

/-- C10 counterexample: on the root-revisiting model the standalone
classifier returns `[0, 1]` while the constructor path — whose visited list
starts empty and therefore re-admits the root — returns `[0, 1, 0]`. -/
theorem identifyStaticLinks_ctor_counterexample :
    OVDB.identifyStaticLinks rootRevisitModel 5 = [0, 1] ∧
    OVDB.createStaticSDFsLinks rootRevisitModel 5 = [0, 1, 0] ∧
    OVDB.identifyStaticLinks rootRevisitModel 5 ≠
      OVDB.createStaticSDFsLinks rootRevisitModel 5 := by decide

/-- C10 witness: on the disjoint model (whose adjacency never names the
root) the two classifier paths agree. -/
theorem identifyStaticLinks_matches_ctor_witness :
    OVDB.identifyStaticLinks disjointModel 5 = OVDB.createStaticSDFsLinks disjointModel 5 :=
  identifyStaticLinks_matches_ctor disjointModel 5
    (fun l => by by_cases h : l = 0 <;> simp [disjointModel, h])

/-- When every attempt fits exactly one sphere, the retry loop runs all its
attempts, halving each time, and keeps the last single-sphere fit. -/
theorem sphereFitLoop_all_single (fit : OVDB.FitOracle)
    (hone : ∀ v, (fit v).length = 1) :
    ∀ (n : Nat) (v : ℝ), OVDB.sphereFitLoop fit (n + 1) v = fit (v * 0.5 ^ n) := by
  intro n
  induction n with
  | zero =>
    intro v
    show fit v = fit (v * 0.5 ^ 0)
    exact congrArg fit (by ring)
  | succ n ihn =>
    intro v
    show (let s := fit v
          if s.length > 1 then s else OVDB.sphereFitLoop fit (n + 1) (v * 0.5)) = _
    simp only []
    rw [if_neg (by rw [hone v]; exact Nat.lt_irrefl 1), ihn (v * 0.5)]
    exact congrArg fit (by ring)

/-- C8 (amended): sphere fitting for an active body is retried at halved
voxel size, bounded to 10 attempts, whenever the fit degenerates to a
single sphere; for a body whose fit yields exactly one sphere at every
attempted resolution the loop exhausts all 10 attempts (9 halvings), and
the stored approximation is that final single sphere — not the empty set —
so the zero-sphere warning is not recorded. -/
theorem sphere_fit_single_sphere_kept (fit : OVDB.FitOracle) (v0 : ℝ)
    (hone : ∀ v, (fit v).length = 1) :
    OVDB.sphereFitLoop fit 10 v0 = fit (v0 * 0.5 ^ 9) ∧
    (OVDB.sphereFitLoop fit 10 v0).length = 1 ∧
    OVDB.sphereFitWarnings (OVDB.sphereFitLoop fit 10 v0) = 0 := by
  have h := sphereFitLoop_all_single fit hone 9 v0
  refine ⟨h, ?_, ?_⟩
  · rw [h]; exact hone _
  · rw [OVDB.sphereFitWarnings, h, hone]
    rfl

/-- C8 witness: a fit oracle producing one fixed sphere at every voxel size
keeps that sphere after the 10 attempts, with no warning. -/
theorem sphere_fit_single_sphere_kept_witness :
    OVDB.sphereFitLoop (fun _ => [(⟨0, 0, 0⟩, 1)]) 10 1
      = (fun _ => [((⟨0, 0, 0⟩ : OVDB.Vec3), (1 : ℝ))]) ((1 : ℝ) * 0.5 ^ 9) ∧
    (OVDB.sphereFitLoop (fun _ => [(⟨0, 0, 0⟩, 1)]) 10 1).length = 1 ∧
    OVDB.sphereFitWarnings (OVDB.sphereFitLoop (fun _ => [(⟨0, 0, 0⟩, 1)]) 10 1) = 0 :=
  sphere_fit_single_sphere_kept (fun _ => [(⟨0, 0, 0⟩, 1)]) 1 (fun _ => rfl)

/-- C8 counterexample: with exactly one sphere at every attempted
resolution, the stored approximation after the 10 attempts is that single
sphere, not the empty set, and the warning is recorded zero times, not
once. -/
theorem sphere_fit_empty_claim_counterexample :
    OVDB.sphereFitLoop (fun _ => [(⟨0, 0, 0⟩, 1)]) 10 1 = [(⟨0, 0, 0⟩, 1)] ∧
    OVDB.sphereFitLoop (fun _ => [(⟨0, 0, 0⟩, 1)]) 10 1 ≠ [] ∧
    OVDB.sphereFitWarnings (OVDB.sphereFitLoop (fun _ => [(⟨0, 0, 0⟩, 1)]) 10 1) = 0 ∧
    OVDB.sphereFitWarnings (OVDB.sphereFitLoop (fun _ => [(⟨0, 0, 0⟩, 1)]) 10 1) ≠ 1 := by
  refine ⟨rfl, ?_, rfl, ?_⟩
  · intro h
    exact List.noConfusion h
  · intro h
    exact Nat.noConfusion h

/-- Default allowed collision matrix of the disjoint model (no SRDF-disabled
pairs). -/
def disjointAcm : Option (String → String → Option ICD.ACMType) :=
  some (OVDB.createDefaultAllowedCollisionMatrix ["1", "2", "3"] [])

/-- Engine state of the disjoint model as the constructor builds it: one
static, one active (with one fitted sphere), one dynamic link, and the
default query plan. -/
def c5State : OVDB.EngineState :=
  { model := disjointModel,
    statics := [1], actives := [2], dynamics := [3],
    active_spheres := [[(⟨0, 0, 0⟩, 1)]],
    dist_query := OVDB.createDefaultDistanceQuery disjointModel.linkName disjointAcm
      [1] [2] [3] [[(⟨0, 0, 0⟩, 1)]],
    background := 2 }

/-- C5: a self-distance request naming a group absent from the kinematic
model makes `distanceSelf` dereference the null pointer returned by
`getJointModelGroup` (undefined behavior, no diagnostic), for every choice
of the external oracles — whereas `DistanceRequest::enableGroup` guards the
same lookup with `hasJointModelGroup` and degrades to a null restriction
instead of dereferencing. -/
theorem distanceSelf_null_group_deref :
    (∀ (robotTf : Nat → OVDB.Vec3 → OVDB.Vec3) (mkActive mkDynamic mkStatic : Nat → OVDB.SDFData),
      OVDB.distanceSelf c5State robotTf mkActive mkDynamic mkStatic ⟨"gripper", false⟩
        = Except.error OVDB.QueryFault.nullGroupDeref) ∧
    ICD.enableGroup (fun g => if g = "manipulator" then some ["2"] else none) "gripper"
      = none := by
  constructor
  · intro robotTf mkActive mkDynamic mkStatic
    rfl
  · rfl

/-- Engine state in which the only active link ended up with an empty
sphere approximation (the degenerate outcome of claim C8), so its query
plan entry keeps `empty = true`. -/
def c6State : OVDB.EngineState :=
  { model := disjointModel,
    statics := [1], actives := [2], dynamics := [3],
    active_spheres := [[]],
    dist_query := OVDB.createDefaultDistanceQuery disjointModel.linkName disjointAcm
      [1] [2] [3] [[]],
    background := 2 }

/-- C6: when every query-plan entry is empty (here: the only active body
has an empty sphere approximation), the per-link result map stays empty and
`distanceSelf` dereferences `res.distance.begin()` of the empty map —
undefined behavior rather than a defined empty-result case — for every
choice of the external oracles. -/
theorem distanceSelf_empty_map_deref :
    ∀ (robotTf : Nat → OVDB.Vec3 → OVDB.Vec3) (mkActive mkDynamic mkStatic : Nat → OVDB.SDFData),
      OVDB.distanceSelf c6State robotTf mkActive mkDynamic mkStatic ⟨"manipulator", true⟩
        = Except.error OVDB.QueryFault.emptyMapDeref := by
  intro robotTf mkActive mkDynamic mkStatic
  rfl

attribute [ext] OVDB.Vec3 OVDB.DistanceResultsDataR OVDB.HelperAcc

/-- A vector with zero squared norm is the zero vector. -/
theorem normSq_eq_zero_vec (v : OVDB.Vec3) (h : OVDB.normSq v = 0) : v = ⟨0, 0, 0⟩ := by
  unfold OVDB.normSq at h
  have hx : v.x = 0 := by nlinarith [sq_nonneg v.x, sq_nonneg v.y, sq_nonneg v.z]
  have hy : v.y = 0 := by nlinarith [sq_nonneg v.x, sq_nonneg v.y, sq_nonneg v.z]
  have hz : v.z = 0 := by nlinarith [sq_nonneg v.x, sq_nonneg v.y, sq_nonneg v.z]
  ext <;> assumption

/-- Normalizing the zero vector yields the zero vector in this real-number
model (Eigen would produce NaN; in neither case a unit vector). -/
theorem normalizeV_zero : OVDB.normalizeV ⟨0, 0, 0⟩ = ⟨0, 0, 0⟩ := by
  unfold OVDB.normalizeV OVDB.vscale
  ext <;> simp

/-- Normalizing a nonzero vector yields a unit vector (squared norm one). -/
theorem normSq_normalizeV (v : OVDB.Vec3) (hv : v ≠ ⟨0, 0, 0⟩) :
    OVDB.normSq (OVDB.normalizeV v) = 1 := by
  have hnn : 0 ≤ OVDB.normSq v := by unfold OVDB.normSq; positivity
  have hne : OVDB.normSq v ≠ 0 := fun h => hv (normSq_eq_zero_vec v h)
  have hpos : 0 < OVDB.normSq v := lt_of_le_of_ne hnn (Ne.symm hne)
  have hcalc : OVDB.normSq (OVDB.normalizeV v)
      = (1 / Real.sqrt (OVDB.normSq v)) ^ 2 * OVDB.normSq v := by
    unfold OVDB.normalizeV OVDB.vscale OVDB.normSq
    ring
  rw [hcalc, div_pow, one_pow, Real.sq_sqrt hnn, one_div,
    inv_mul_cancel₀ hne]

/-- The sphere scan never reports a distance above the background, and a
found distance is strictly below it. -/
theorem sphereScan_inv (child : OVDB.SDFData) (bg : ℝ) (spheres : List OVDB.Sphere) :
    (OVDB.sphereScan child bg spheres).1 ≤ bg ∧
    ((OVDB.sphereScan child bg spheres).2.2 = true →
      (OVDB.sphereScan child bg spheres).1 < bg) := by
  unfold OVDB.sphereScan
  have key : ∀ (ss : List OVDB.Sphere) (acc : ℝ × (ℤ × ℤ × ℤ) × Bool),
      acc.1 ≤ bg → (acc.2.2 = true → acc.1 < bg) →
      ((ss.foldl (fun acc s =>
          let ijk := child.worldToIndexNodeCentered s.1
          let child_dist := child.value ijk
          if ¬ OVDB.approxEqual child_dist bg then
            let d := child_dist - s.2
            if d < acc.1 then (d, ijk, true) else acc
          else acc) acc).1 ≤ bg ∧
        ((ss.foldl (fun acc s =>
          let ijk := child.worldToIndexNodeCentered s.1
          let child_dist := child.value ijk
          if ¬ OVDB.approxEqual child_dist bg then
            let d := child_dist - s.2
            if d < acc.1 then (d, ijk, true) else acc
          else acc) acc).2.2 = true →
          (ss.foldl (fun acc s =>
          let ijk := child.worldToIndexNodeCentered s.1
          let child_dist := child.value ijk
          if ¬ OVDB.approxEqual child_dist bg then
            let d := child_dist - s.2
            if d < acc.1 then (d, ijk, true) else acc
          else acc) acc).1 < bg)) := by
    intro ss
    induction ss with
    | nil => intro acc h1 h2; exact ⟨h1, h2⟩
    | cons s rest ihs =>
      intro acc h1 h2
      simp only [List.foldl_cons]
      by_cases ha : OVDB.approxEqual (child.value (child.worldToIndexNodeCentered s.1)) bg
      · rw [if_neg (not_not_intro ha)]
        exact ihs acc h1 h2
      · rw [if_pos ha]
        by_cases hd : child.value (child.worldToIndexNodeCentered s.1) - s.2 < acc.1
        · rw [if_pos hd]
          exact ihs _ (le_of_lt (lt_of_lt_of_le hd h1)) (fun _ => lt_of_lt_of_le hd h1)
        · rw [if_neg hd]
          exact ihs acc h1 h2
  exact key spheres (bg, (0, 0, 0), false) le_rfl (fun h => Bool.noConfusion h)

/-- One child step preserves: nonnegative total weight, and positive total
weight once the has-gradient flag is set. -/
theorem distanceSelfChild_inv (data : OVDB.DistanceQueryData)
    (sdfs : OVDB.Role → Nat → OVDB.SDFData) (bg : ℝ) (acc : OVDB.HelperAcc)
    (c : String × OVDB.Role × Nat)
    (h1 : 0 ≤ acc.total_weights)
    (h2 : acc.res.hasGradient = true → 0 < acc.total_weights) :
    0 ≤ (OVDB.distanceSelfChild data sdfs bg acc c).total_weights ∧
    ((OVDB.distanceSelfChild data sdfs bg acc c).res.hasGradient = true →
      0 < (OVDB.distanceSelfChild data sdfs bg acc c).total_weights) := by
  have hscan := sphereScan_inv (sdfs c.2.1 c.2.2) bg data.spheres
  unfold OVDB.distanceSelfChild
  simp only []
  split
  · rename_i hfound
    have hlt : (OVDB.sphereScan (sdfs c.2.1 c.2.2) bg data.spheres).1 < bg :=
      hscan.2 hfound
    have hw : 0 < bg - (OVDB.sphereScan (sdfs c.2.1 c.2.2) bg data.spheres).1 := by
      linarith
    split
    · split
      · constructor
        · exact le_of_lt (add_pos_of_nonneg_of_pos h1 hw)
        · intro _
          exact add_pos_of_nonneg_of_pos h1 hw
      · refine ⟨h1, ?_⟩
        intro hgr
        apply h2
        revert hgr
        split <;> exact fun h => h
    · refine ⟨h1, ?_⟩
      intro hgr
      apply h2
      revert hgr
      split <;> exact fun h => h
  · exact ⟨h1, h2⟩

/-- Over the whole child loop: total weight is nonnegative and strictly
positive whenever the entry records a gradient (every contributing weight
is strictly positive, so the total-weight-zero branch of
`distanceSelfHelper` is unreachable with `hasGradient` set). -/
theorem helperCore_weights (data : OVDB.DistanceQueryData)
    (sdfs : OVDB.Role → Nat → OVDB.SDFData) (bg : ℝ) :
    0 ≤ (OVDB.distanceSelfHelperCore data sdfs bg).total_weights ∧
    ((OVDB.distanceSelfHelperCore data sdfs bg).res.hasGradient = true →
      0 < (OVDB.distanceSelfHelperCore data sdfs bg).total_weights) := by
  unfold OVDB.distanceSelfHelperCore
  simp only []
  have key : ∀ (cs : List (String × OVDB.Role × Nat)) (acc : OVDB.HelperAcc),
      0 ≤ acc.total_weights → (acc.res.hasGradient = true → 0 < acc.total_weights) →
      0 ≤ (cs.foldl (OVDB.distanceSelfChild data sdfs bg) acc).total_weights ∧
      ((cs.foldl (OVDB.distanceSelfChild data sdfs bg) acc).res.hasGradient = true →
        0 < (cs.foldl (OVDB.distanceSelfChild data sdfs bg) acc).total_weights) := by
    intro cs
    induction cs with
    | nil => intro acc h1 h2; exact ⟨h1, h2⟩
    | cons c rest ihc =>
      intro acc h1 h2
      simp only [List.foldl_cons]
      have hstep := distanceSelfChild_inv data sdfs bg acc c h1 h2
      exact ihc _ hstep.1 hstep.2
  exact key _ _ le_rfl (fun h => Bool.noConfusion h)

/-- The final gradient post-processing never changes the has-gradient flag. -/
theorem distanceSelfHelper_hasGradient (data : OVDB.DistanceQueryData)
    (sdfs : OVDB.Role → Nat → OVDB.SDFData) (bg : ℝ) :
    (OVDB.distanceSelfHelper data sdfs bg).hasGradient =
      (OVDB.distanceSelfHelperCore data sdfs bg).res.hasGradient := by
  unfold OVDB.distanceSelfHelper
  simp only []
  split
  · split
    · rfl
    · rfl
  · rfl

/-- C7 (amended): whenever the returned entry's `hasGradient` flag is true,
the total accumulated weight is strictly positive (the total-weight-zero
branch is unreachable, since every contribution's weight `background −
child_min` is strictly positive), and the reported gradient either has unit
length or — when the weighted contributions cancel exactly — is the zero
vector produced by normalizing the zero vector, which no floating-point
tolerance can call unit length. -/
theorem gradient_unit_or_exact_cancellation (data : OVDB.DistanceQueryData)
    (sdfs : OVDB.Role → Nat → OVDB.SDFData) (bg : ℝ)
    (hg : (OVDB.distanceSelfHelper data sdfs bg).hasGradient = true) :
    0 < (OVDB.distanceSelfHelperCore data sdfs bg).total_weights ∧
    (OVDB.normSq (OVDB.distanceSelfHelper data sdfs bg).gradient = 1 ∨
     (OVDB.distanceSelfHelper data sdfs bg).gradient = ⟨0, 0, 0⟩) := by
  have hcg := distanceSelfHelper_hasGradient data sdfs bg
  have hcore : (OVDB.distanceSelfHelperCore data sdfs bg).res.hasGradient = true := by
    rw [← hcg]; exact hg
  have htot := (helperCore_weights data sdfs bg).2 hcore
  refine ⟨htot, ?_⟩
  unfold OVDB.distanceSelfHelper
  simp only []
  rw [if_pos hcore, if_neg (ne_of_gt htot)]
  rcases Classical.em
      ((⟨(OVDB.distanceSelfHelperCore data sdfs bg).gradient.x /
            (OVDB.distanceSelfHelperCore data sdfs bg).total_weights,
         (OVDB.distanceSelfHelperCore data sdfs bg).gradient.y /
            (OVDB.distanceSelfHelperCore data sdfs bg).total_weights,
         (OVDB.distanceSelfHelperCore data sdfs bg).gradient.z /
            (OVDB.distanceSelfHelperCore data sdfs bg).total_weights⟩ : OVDB.Vec3)
        = ⟨0, 0, 0⟩) with hzero | hnz
  · right
    show OVDB.normalizeV _ = _
    rw [hzero]
    exact normalizeV_zero
  · left
    exact normSq_normalizeV _ hnz

/-- Two SDF oracles with identical unit distance samples but exactly
opposite cell gradients (a symmetric corridor seen from its middle). -/
noncomputable def cancelSDF : OVDB.Role → Nat → OVDB.SDFData := fun _ i =>
  { value := fun _ => 1,
    worldToIndexNodeCentered := fun _ => (0, 0, 0),
    gradAt := fun _ => if i = 0 then ⟨1, 0, 0⟩ else ⟨-1, 0, 0⟩,
    applyIJT := fun v => v }

/-- Query plan with two children and one zero-radius sphere, gradient
requested. -/
noncomputable def cancelData : OVDB.DistanceQueryData :=
  { parent_name := "p", empty := false,
    child_name := ["c1", "c2"],
    child_type := [OVDB.Role.Dynamic, OVDB.Role.Dynamic],
    child_index := [0, 1],
    spheres := [(⟨0, 0, 0⟩, 0)], gradient := true }

/-- Sampling 1 against background 2 is not a background read. -/
theorem cancel_not_approx : ¬ OVDB.approxEqual (1 : ℝ) 2 := by
  unfold OVDB.approxEqual
  rw [show (1 : ℝ) - 2 = -1 by norm_num, abs_neg, abs_one]
  norm_num

/-- The sphere scan against either child finds distance 1 at cell (0,0,0). -/
theorem cancel_scan (i : Nat) :
    OVDB.sphereScan (cancelSDF OVDB.Role.Dynamic i) 2 cancelData.spheres
      = (1, (0, 0, 0), true) := by
  unfold OVDB.sphereScan cancelSDF cancelData
  simp only [List.foldl_cons, List.foldl_nil]
  rw [if_pos cancel_not_approx, if_pos (by norm_num : (1 : ℝ) - 0 < 2)]
  norm_num

/-- First child: records distance 1, nearest child "c1", gradient (1,0,0)
with weight 1. -/
theorem cancel_child_0 :
    OVDB.distanceSelfChild cancelData cancelSDF 2
      { res := { min_distance := 2, link_name0 := "p", hasNearestPoints := false },
        gradient := ⟨0, 0, 0⟩, total_weights := 0 }
      ("c1", OVDB.Role.Dynamic, 0)
    = { res := { min_distance := 1, link_name0 := "p", link_name1 := "c1",
                 hasNearestPoints := false, hasGradient := true },
        gradient := ⟨1, 0, 0⟩, total_weights := 1 } := by
  unfold OVDB.distanceSelfChild
  dsimp only
  rw [cancel_scan 0]
  dsimp only
  rw [if_pos rfl]
  rw [if_pos (by norm_num : (1 : ℝ) < 2)]
  have hgrad : cancelData.gradient = true := rfl
  rw [if_pos hgrad]
  have hsum : OVDB.vsum ((cancelSDF OVDB.Role.Dynamic 0).gradAt (0, 0, 0)) ≠ 0 := by
    unfold cancelSDF OVDB.vsum
    norm_num
  rw [if_pos hsum]
  ext <;> first
    | rfl
    | norm_num [cancelSDF, OVDB.vadd, OVDB.vscale, OVDB.normalizeV, OVDB.normSq,
        Real.sqrt_one]

/-- Second child: distance does not improve, but the opposite gradient
(-1,0,0) contributes weight 1, cancelling the accumulator exactly. -/
theorem cancel_child_1 :
    OVDB.distanceSelfChild cancelData cancelSDF 2
      { res := { min_distance := 1, link_name0 := "p", link_name1 := "c1",
                 hasNearestPoints := false, hasGradient := true },
        gradient := ⟨1, 0, 0⟩, total_weights := 1 }
      ("c2", OVDB.Role.Dynamic, 1)
    = { res := { min_distance := 1, link_name0 := "p", link_name1 := "c1",
                 hasNearestPoints := false, hasGradient := true },
        gradient := ⟨0, 0, 0⟩, total_weights := 2 } := by
  unfold OVDB.distanceSelfChild
  dsimp only
  rw [cancel_scan 1]
  dsimp only
  rw [if_pos rfl]
  rw [if_neg (by norm_num : ¬ ((1 : ℝ) < 1))]
  have hgrad : cancelData.gradient = true := rfl
  rw [if_pos hgrad]
  have hsum : OVDB.vsum ((cancelSDF OVDB.Role.Dynamic 1).gradAt (0, 0, 0)) ≠ 0 := by
    unfold cancelSDF OVDB.vsum
    norm_num
  rw [if_pos hsum]
  ext <;> first
    | rfl
    | norm_num [cancelSDF, OVDB.vadd, OVDB.vscale, OVDB.normalizeV, OVDB.normSq,
        Real.sqrt_one]

/-- Full child loop on the cancellation fixture: gradient recorded, total
weight 2, accumulated gradient exactly zero. -/
theorem cancel_core :
    OVDB.distanceSelfHelperCore cancelData cancelSDF 2
    = { res := { min_distance := 1, link_name0 := "p", link_name1 := "c1",
                 hasNearestPoints := false, hasGradient := true },
        gradient := ⟨0, 0, 0⟩, total_weights := 2 } := by
  unfold OVDB.distanceSelfHelperCore
  simp only []
  have hz : cancelData.child_name.zip (cancelData.child_type.zip cancelData.child_index)
      = [("c1", OVDB.Role.Dynamic, 0), ("c2", OVDB.Role.Dynamic, 1)] := rfl
  rw [hz]
  simp only [List.foldl_cons, List.foldl_nil,
    show cancelData.parent_name = "p" from rfl]
  rw [cancel_child_0, cancel_child_1]

/-- The helper's returned entry on the cancellation fixture: gradient flag
set, reported gradient exactly the zero vector. -/
theorem cancel_helper_eval :
    OVDB.distanceSelfHelper cancelData cancelSDF 2
    = { min_distance := 1, link_name0 := "p", link_name1 := "c1",
        hasNearestPoints := false, hasGradient := true, gradient := ⟨0, 0, 0⟩ } := by
  unfold OVDB.distanceSelfHelper
  simp only []
  rw [cancel_core]
  dsimp only
  rw [if_pos rfl, if_neg (by norm_num : ¬ ((2 : ℝ) = 0))]
  ext <;> first
    | rfl
    | norm_num [OVDB.normalizeV, OVDB.vscale, OVDB.normSq]

/-- C7 counterexample: two exactly opposed unit cell gradients with equal
(strictly positive) weights cancel; the entry comes back with `hasGradient`
true and a nonzero total weight, yet the reported gradient is the zero
vector — not unit length within any tolerance — refuting "unit length
unless the total accumulated weight was zero". -/
theorem gradient_cancellation_counterexample :
    (OVDB.distanceSelfHelper cancelData cancelSDF 2).hasGradient = true ∧
    (OVDB.distanceSelfHelperCore cancelData cancelSDF 2).total_weights ≠ 0 ∧
    OVDB.normSq (OVDB.distanceSelfHelper cancelData cancelSDF 2).gradient ≠ 1 ∧
    (OVDB.distanceSelfHelper cancelData cancelSDF 2).gradient = ⟨0, 0, 0⟩ := by
  rw [cancel_helper_eval, cancel_core]
  refine ⟨rfl, by norm_num, ?_, rfl⟩
  norm_num [OVDB.normSq]

/-- C7 witness: the amended disjunction applied to the cancellation
fixture (where the right disjunct — exact cancellation — is realized). -/
theorem gradient_unit_or_exact_cancellation_witness :
    0 < (OVDB.distanceSelfHelperCore cancelData cancelSDF 2).total_weights ∧
    (OVDB.normSq (OVDB.distanceSelfHelper cancelData cancelSDF 2).gradient = 1 ∨
     (OVDB.distanceSelfHelper cancelData cancelSDF 2).gradient = ⟨0, 0, 0⟩) :=
  gradient_unit_or_exact_cancellation cancelData cancelSDF 2
    (by rw [cancel_helper_eval])
